import Mathlib

/-!
# Camera / input controller of `hello_triangle.cpp` and `hello_text_txf.cpp`

A shallow embedding of the pan/zoom controller: the coordinate transforms,
`clamp`, the zoom and pan operations and the `switch` of `handleEvents`.

Conventions of the embedding.

* A C `float` is a `Flt`: either an exact rational `Flt.fin q` or `Flt.undef`.
  Arithmetic is exact (no rounding).  `Flt.undef` is the result of a division whose
  divisor is zero, where exact arithmetic has no value, and it is propagated by every
  arithmetic operation; every comparison with it is false.  This is the behaviour of
  an IEEE NaN (the value of 0/0); the infinities that IEEE gives for a nonzero
  dividend are not told apart from it.
* A C `int` (and `long long`, `Sint64`) is an `Int`; signed overflow is not modelled.
* Calls into SDL / OpenGL (`glUniform*`, `glViewport`, `printf`) have no effect on
  the controller state and are left out.
-/

namespace PanZoom

/-! ## Floats in exact arithmetic -/

/-- A `float` value in exact arithmetic. -/
inductive Flt where
  | fin (q : ℚ)
  | undef
  deriving DecidableEq, Repr

namespace Flt

/-- Addition of floats. -/
def add : Flt → Flt → Flt
  | fin a, fin b => fin (a + b)
  | _, _ => undef

/-- Subtraction of floats. -/
def sub : Flt → Flt → Flt
  | fin a, fin b => fin (a - b)
  | _, _ => undef

/-- Multiplication of floats. -/
def mul : Flt → Flt → Flt
  | fin a, fin b => fin (a * b)
  | _, _ => undef

/-- Division of floats; it has no exact value when the divisor is zero. -/
def div : Flt → Flt → Flt
  | fin a, fin b => if b = 0 then undef else fin (a / b)
  | _, _ => undef

/-- Comparison `a < b` of floats. -/
def lt : Flt → Flt → Bool
  | fin a, fin b => decide (a < b)
  | _, _ => false

/-- Comparison `a >= b` of floats. -/
def ge : Flt → Flt → Bool
  | fin a, fin b => decide (b ≤ a)
  | _, _ => false

/-- The C library function `fabs`. -/
def fabs : Flt → Flt
  | fin a => fin |a|
  | undef => undef

/-- Unary minus. -/
def neg : Flt → Flt
  | fin a => fin (-a)
  | undef => undef

/-- Conversion `(float)i` of an `int`. -/
def ofInt (i : Int) : Flt := fin (i : ℚ)

instance : Add Flt := ⟨add⟩
instance : Sub Flt := ⟨sub⟩
instance : Mul Flt := ⟨mul⟩
instance : Div Flt := ⟨div⟩
instance : Neg Flt := ⟨neg⟩

end Flt

/-- The function `std::max(a, b)`: `(a < b) ? b : a`. -/
def stdMax (a b : Flt) : Flt := if Flt.lt a b then b else a

/-- The function `std::min(a, b)`: `(b < a) ? b : a`. -/
def stdMin (a b : Flt) : Flt := if Flt.lt b a then b else a

/-- Function `float clamp (float val, float lo, float hi)`. -/
def clamp (val lo hi : Flt) : Flt := stdMax lo (stdMin val hi)

/-! ## Constants -/

def MOUSE_WHEEL_ZOOM_DELTA : Flt := Flt.fin (5 / 100)
def PINCH_ZOOM_THRESHOLD : Flt := Flt.fin (1 / 1000)
def PINCH_SCALE : Flt := Flt.fin 8
def ZOOM_MIN : Flt := Flt.fin (1 / 10)
def ZOOM_MAX : Flt := Flt.fin 10

/-- The SDL constant `SDL_BUTTON_LEFT`. -/
def SDL_BUTTON_LEFT : Nat := 1

/-- The SDL constant `SDL_WINDOWEVENT_SIZE_CHANGED`. -/
def SDL_WINDOWEVENT_SIZE_CHANGED : Nat := 6

/-! ## State -/

/-- The two programs that share the controller code. -/
inductive Program where
  | helloTriangle
  | helloTextTxf
  deriving DecidableEq, Repr

/-- The global variables read or written by the controller.  `viewport` exists in
`hello_text_txf.cpp` only; `hello_triangle.cpp` never touches it. -/
structure State where
  windowID : Nat
  windowWidth : Int
  windowHeight : Int
  mouseButtonDown : Bool
  mouseButtonDownX : Int
  mouseButtonDownY : Int
  mousePositionX : Int
  mousePositionY : Int
  fingerDown : Bool
  fingerDownX : Flt
  fingerDownY : Flt
  fingerDownId : Int
  pinch : Bool
  pan : Flt × Flt
  zoom : Flt
  aspect : Flt
  viewport : Flt × Flt
  basePan : Flt × Flt
  deriving DecidableEq, Repr

/-- The globals as initialised at their declarations, with `windowID` as assigned in
`main` from `SDL_GetWindowID`. -/
def initialState (p : Program) (wid : Nat) : State :=
  { windowID := wid
    windowWidth := 640
    windowHeight := 480
    mouseButtonDown := false
    mouseButtonDownX := 0
    mouseButtonDownY := 0
    mousePositionX := 0
    mousePositionY := 0
    fingerDown := false
    fingerDownX := Flt.fin 0
    fingerDownY := Flt.fin 0
    fingerDownId := 0
    pinch := false
    pan := (Flt.fin 0, Flt.fin 0)
    zoom := match p with
      | Program.helloTriangle => Flt.fin 1
      | Program.helloTextTxf => Flt.fin (18 / 10)
    aspect := Flt.fin 1
    viewport := (Flt.fin 640, Flt.fin 480)
    basePan := (Flt.fin 0, Flt.fin 0) }

/-! ## Coordinate transforms -/

/-- Function `normWindowToDeviceCoords`: normalized window coords to device coords. -/
def normWindowToDeviceCoords (normWinX normWinY : Flt) : Flt × Flt :=
  ((normWinX - Flt.fin (1 / 2)) * Flt.fin 2,
   (Flt.fin 1 - normWinY - Flt.fin (1 / 2)) * Flt.fin 2)

/-- Function `windowToDeviceCoords`: window pixel coords to device coords. -/
def windowToDeviceCoords (s : State) (winX winY : Int) : Flt × Flt :=
  normWindowToDeviceCoords (Flt.ofInt winX / Flt.ofInt s.windowWidth)
    (Flt.ofInt winY / Flt.ofInt s.windowHeight)

/-- Function `deviceToWorldCoords`: device coords to world coords. -/
def deviceToWorldCoords (s : State) (deviceX deviceY : Flt) : Flt × Flt :=
  (deviceX / s.zoom - s.pan.1, deviceY / s.aspect / s.zoom - s.pan.2)

/-- Function `windowToWorldCoords`: window pixel coords to world coords. -/
def windowToWorldCoords (s : State) (winX winY : Int) : Flt × Flt :=
  let d := windowToDeviceCoords s winX winY
  deviceToWorldCoords s d.1 d.2

/-- Function `normWindowToWorldCoords`: normalized window coords to world coords. -/
def normWindowToWorldCoords (s : State) (normWinX normWinY : Flt) : Flt × Flt :=
  let d := normWindowToDeviceCoords normWinX normWinY
  deviceToWorldCoords s d.1 d.2

/-- The transform of `vertexSource` on the `xy` part of a vertex position:
`gl_Position.xy += pan; gl_Position.xy *= zoom; gl_Position.y *= aspect`. -/
def vertexShader (s : State) (position : Flt × Flt) : Flt × Flt :=
  let x := (position.1 + s.pan.1) * s.zoom
  let y := (position.2 + s.pan.2) * s.zoom
  (x, y * s.aspect)

/-! ## Operations -/

/-- Function `windowResizeEvent`; the `viewport` assignment is the one of
`hello_text_txf.cpp`. -/
def windowResizeEvent (p : Program) (width height : Int) (s : State) : State :=
  let s1 := { s with windowWidth := width, windowHeight := height }
  let s2 := { s1 with aspect := Flt.ofInt s1.windowWidth / Flt.ofInt s1.windowHeight }
  match p with
  | Program.helloTriangle => s2
  | Program.helloTextTxf =>
    { s2 with viewport := (Flt.ofInt s2.windowWidth, Flt.ofInt s2.windowHeight) }

/-- Function `zoomEventMouse`.  The parameters `x` and `y` are not read by the body,
which works on the globals `mousePositionX`, `mousePositionY`. -/
def zoomEventMouse (mouseWheelDown : Bool) (_x _y : Int) (s : State) : State :=
  let pre := windowToWorldCoords s s.mousePositionX s.mousePositionY
  let zoomDelta := if mouseWheelDown then -MOUSE_WHEEL_ZOOM_DELTA else MOUSE_WHEEL_ZOOM_DELTA
  let s1 := { s with zoom := s.zoom + zoomDelta }
  let s2 := { s1 with zoom := clamp s1.zoom ZOOM_MIN ZOOM_MAX }
  let post := windowToWorldCoords s2 s2.mousePositionX s2.mousePositionY
  let deltaWorldX := post.1 - pre.1
  let deltaWorldY := post.2 - pre.2
  { s2 with pan := (s2.pan.1 + deltaWorldX, s2.pan.2 + deltaWorldY) }

/-- Function `zoomEventPinch`. -/
def zoomEventPinch (pinchDist pinchX pinchY : Flt) (s : State) : State :=
  let pre := normWindowToWorldCoords s pinchX pinchY
  let zoomDelta := pinchDist * PINCH_SCALE
  let s1 := { s with zoom := s.zoom + zoomDelta }
  let s2 := { s1 with zoom := clamp s1.zoom ZOOM_MIN ZOOM_MAX }
  let post := normWindowToWorldCoords s2 pinchX pinchY
  let deltaWorldX := post.1 - pre.1
  let deltaWorldY := post.2 - pre.2
  { s2 with pan := (s2.pan.1 + deltaWorldX, s2.pan.2 + deltaWorldY) }

/-- Function `panEventMouse`; `/` on `int` truncates toward zero. -/
def panEventMouse (x y : Int) (s : State) : State :=
  let deltaX := Int.tdiv s.windowWidth 2 + (x - s.mouseButtonDownX)
  let deltaY := Int.tdiv s.windowHeight 2 + (y - s.mouseButtonDownY)
  let d := windowToDeviceCoords s deltaX deltaY
  { s with pan := (s.basePan.1 + d.1 / s.zoom, s.basePan.2 + d.2 / s.zoom / s.aspect) }

/-- Function `panEventFinger`. -/
def panEventFinger (x y : Flt) (s : State) : State :=
  let deltaX := Flt.fin (1 / 2) + (x - s.fingerDownX)
  let deltaY := Flt.fin (1 / 2) + (y - s.fingerDownY)
  let d := normWindowToDeviceCoords deltaX deltaY
  { s with pan := (s.basePan.1 + d.1 / s.zoom, s.basePan.2 + d.2 / s.zoom / s.aspect) }

/-! ## Event dispatch -/

/-- The SDL events, with the fields that `handleEvents` reads (and the finger id
and position of a finger-up event, which it does not read).  `other` is any event
type without a `case`. -/
inductive Event where
  | quit
  | window (windowID : Nat) (event : Nat) (data1 data2 : Int)
  | mouseWheel (y : Int)
  | mouseMotion (x y : Int)
  | mouseButtonDown (button : Nat) (x y : Int)
  | mouseButtonUp (button : Nat) (x y : Int)
  | fingerMotion (fingerId : Int) (x y : Flt)
  | fingerDown (fingerId : Int) (x y : Flt)
  | multiGesture (numFingers : Nat) (dDist x y : Flt)
  | fingerUp (fingerId : Int) (x y : Flt)
  | other
  deriving DecidableEq, Repr

/-- The body of the `switch` in `handleEvents` for one event. `none` is
`std::terminate()` (the `SDL_QUIT` case). -/
def handleEvent (p : Program) (s : State) : Event → Option State
  | Event.quit => none
  | Event.window windowID event data1 data2 =>
    if windowID = s.windowID ∧ event = SDL_WINDOWEVENT_SIZE_CHANGED then
      some (windowResizeEvent p data1 data2 s)
    else some s
  | Event.mouseWheel y =>
    let mouseWheelDown := decide (y < 0)
    some (zoomEventMouse mouseWheelDown s.mousePositionX s.mousePositionY s)
  | Event.mouseMotion x y =>
    let s1 := { s with mousePositionX := x, mousePositionY := y }
    if s1.mouseButtonDown && !s1.fingerDown && !s1.pinch then
      some (panEventMouse s1.mousePositionX s1.mousePositionY s1)
    else some s1
  | Event.mouseButtonDown button x y =>
    if button = SDL_BUTTON_LEFT ∧ s.fingerDown = false ∧ s.pinch = false then
      some { s with mouseButtonDown := true, mouseButtonDownX := x, mouseButtonDownY := y,
                    basePan := (s.pan.1, s.pan.2) }
    else some s
  | Event.mouseButtonUp button _ _ =>
    if button = SDL_BUTTON_LEFT then some { s with mouseButtonDown := false } else some s
  | Event.fingerMotion fingerId x y =>
    if s.fingerDown then
      if fingerId = s.fingerDownId then some (panEventFinger x y s) else some s
    else some s
  | Event.fingerDown fingerId x y =>
    if !s.pinch then
      if s.fingerDown then some { s with fingerDown := false }
      else
        some { s with fingerDown := true, fingerDownX := x, fingerDownY := y,
                      fingerDownId := fingerId, basePan := (s.pan.1, s.pan.2) }
    else some s
  | Event.multiGesture numFingers dDist x y =>
    if numFingers = 2 ∧ Flt.ge (Flt.fabs dDist) PINCH_ZOOM_THRESHOLD = true then
      some (zoomEventPinch dDist x y
        { s with pinch := true, fingerDown := false, mouseButtonDown := false })
    else some s
  | Event.fingerUp _ _ _ => some { s with fingerDown := false, pinch := false }
  | Event.other => some s

/-- The `while (SDL_PollEvent(&event))` loop of `handleEvents` over the queued
events, in order; the calls of `handleEvents` of successive frames compose to the
same fold. -/
def handleEvents (p : Program) : State → List Event → Option State
  | s, [] => some s
  | s, e :: es =>
    match handleEvent p s e with
    | none => none
    | some s1 => handleEvents p s1 es

/-- The zoom bound `ZOOM_MIN <= zoom && zoom <= ZOOM_MAX`. -/
def zoomInRange (s : State) : Bool := Flt.ge s.zoom ZOOM_MIN && Flt.ge ZOOM_MAX s.zoom

/-- The states reached from the initial state by a finite sequence of events. -/
def Reachable (p : Program) (wid : Nat) (s : State) : Prop :=
  ∃ events : List Event, handleEvents p (initialState p wid) events = some s

/-! ## Divisors

The divisor of every `/` on floats that a function evaluates, in evaluation order.  The
only other division is the `int` halving `/ 2` of `panEventMouse`, whose divisor is the
literal 2. -/

/-- A divisor for which the quotient is defined: an exact number other than zero. -/
def Flt.isNonzero : Flt → Bool
  | Flt.fin q => decide (q ≠ 0)
  | Flt.undef => false

/-- Divisors of `windowToDeviceCoords`: `(float)windowWidth`, `(float)windowHeight`. -/
def windowToDeviceCoordsDivisors (s : State) : List Flt :=
  [Flt.ofInt s.windowWidth, Flt.ofInt s.windowHeight]

/-- Divisors of `deviceToWorldCoords`: `zoom` in `deviceX / zoom`, then `aspect` and
`zoom` in `deviceY / aspect / zoom`. -/
def deviceToWorldCoordsDivisors (s : State) : List Flt :=
  [s.zoom, s.aspect, s.zoom]

/-- Divisors of `windowToWorldCoords`. -/
def windowToWorldCoordsDivisors (s : State) : List Flt :=
  windowToDeviceCoordsDivisors s ++ deviceToWorldCoordsDivisors s

/-- Divisors of `normWindowToWorldCoords` (`normWindowToDeviceCoords` has none). -/
def normWindowToWorldCoordsDivisors (s : State) : List Flt :=
  deviceToWorldCoordsDivisors s

/-- Divisor of `windowResizeEvent`: `(float)windowHeight` after the assignment. -/
def windowResizeEventDivisors (_width height : Int) : List Flt :=
  [Flt.ofInt height]

/-- Divisors of `zoomEventMouse`: those of the two `windowToWorldCoords` calls, before
and after the zoom is updated. -/
def zoomEventMouseDivisors (mouseWheelDown : Bool) (s : State) : List Flt :=
  let zoomDelta := if mouseWheelDown then -MOUSE_WHEEL_ZOOM_DELTA else MOUSE_WHEEL_ZOOM_DELTA
  let s1 := { s with zoom := s.zoom + zoomDelta }
  let s2 := { s1 with zoom := clamp s1.zoom ZOOM_MIN ZOOM_MAX }
  windowToWorldCoordsDivisors s ++ windowToWorldCoordsDivisors s2

/-- Divisors of `zoomEventPinch`: those of the two `normWindowToWorldCoords` calls. -/
def zoomEventPinchDivisors (pinchDist : Flt) (s : State) : List Flt :=
  let zoomDelta := pinchDist * PINCH_SCALE
  let s1 := { s with zoom := s.zoom + zoomDelta }
  let s2 := { s1 with zoom := clamp s1.zoom ZOOM_MIN ZOOM_MAX }
  normWindowToWorldCoordsDivisors s ++ normWindowToWorldCoordsDivisors s2

/-- Divisors of `panEventMouse`: those of `windowToDeviceCoords`, `zoom` in
`deviceX / zoom`, then `zoom` and `aspect` in `deviceY / zoom / aspect`. -/
def panEventMouseDivisors (s : State) : List Flt :=
  windowToDeviceCoordsDivisors s ++ [s.zoom, s.zoom, s.aspect]

/-- Divisors of `panEventFinger`. -/
def panEventFingerDivisors (s : State) : List Flt :=
  [s.zoom, s.zoom, s.aspect]

/-- Divisors evaluated by the `switch` of `handleEvents` for one event, following the
branches of `handleEvent`. -/
def handleEventDivisors (_p : Program) (s : State) : Event → List Flt
  | Event.window windowID event data1 data2 =>
    if windowID = s.windowID ∧ event = SDL_WINDOWEVENT_SIZE_CHANGED then
      windowResizeEventDivisors data1 data2
    else []
  | Event.mouseWheel y => zoomEventMouseDivisors (decide (y < 0)) s
  | Event.mouseMotion x y =>
    let s1 := { s with mousePositionX := x, mousePositionY := y }
    if s1.mouseButtonDown && !s1.fingerDown && !s1.pinch then panEventMouseDivisors s1
    else []
  | Event.fingerMotion fingerId _ _ =>
    if s.fingerDown then
      if fingerId = s.fingerDownId then panEventFingerDivisors s else []
    else []
  | Event.multiGesture numFingers dDist _ _ =>
    if numFingers = 2 ∧ Flt.ge (Flt.fabs dDist) PINCH_ZOOM_THRESHOLD = true then
      zoomEventPinchDivisors dDist
        { s with pinch := true, fingerDown := false, mouseButtonDown := false }
    else []
  | _ => []

/-- A size-changed event of the window `wid` carries a nonzero width and height (every
other event passes). -/
def resizeNonzero (wid : Nat) : Event → Bool
  | Event.window windowID event data1 data2 =>
    !(decide (windowID = wid) && decide (event = SDL_WINDOWEVENT_SIZE_CHANGED)) ||
      (decide (data1 ≠ 0) && decide (data2 ≠ 0))
  | _ => true

/-- The state condition under which every divisor is nonzero: the zoom is within its
bounds, `aspect`, `windowWidth` and `windowHeight` are nonzero, and the window is `wid`. -/
def divisorsGood (wid : Nat) (s : State) : Prop :=
  s.windowID = wid ∧ zoomInRange s = true ∧ s.aspect.isNonzero = true ∧
    s.windowWidth ≠ 0 ∧ s.windowHeight ≠ 0

/-! ## Text texture and drawing (`hello_text_txf.cpp`) -/

/-- The fields of a `TexFont` that `initTextTexture` reads. -/
structure TexFont where
  tex_width : Int
  tex_height : Int
  teximage : List Nat
  deriving DecidableEq, Repr

/-- The primitive modes used by `redraw`. -/
inductive DrawMode where
  | GL_TRIANGLES
  | GL_TRIANGLE_STRIP
  deriving DecidableEq, Repr

/-- The calls into OpenGL, SDL and `printf` made by `initTextTexture` and `redraw`, with
the arguments that vary. -/
inductive GLCall where
  | printfTxfDimensions (width height : Int)
  | printfErrorLoadingTxf
  | glEnableBlend
  | glBlendFunc
  | glGenTextures
  | glBindTexture (texture : Nat)
  | glTexParameteriWrapS
  | glTexParameteriWrapT
  | glTexParameteriMinFilter
  | glTexParameteriMagFilter
  | glTexImage2D (width height : Int) (pixels : List Nat)
  | updateShaderUniforms (textSize : Flt × Flt)
  | glClear
  | glUseProgram (program : Nat)
  | glBindBuffer (buffer : Nat)
  | glVertexAttribPointer
  | glDrawArrays (mode : DrawMode) (first count : Nat)
  | SDL_GL_SwapWindow
  deriving DecidableEq, Repr

/-- The graphics globals of `hello_text_txf.cpp`. -/
structure Gfx where
  txf : Option TexFont
  textureObj : Nat
  textSize : Flt × Flt
  triShaderProgram : Nat
  quadShaderProgram : Nat
  triangleVbo : Nat
  quadVbo : Nat
  deriving DecidableEq, Repr

/-- The pixel `c | c << 8 | c << 16 | c << 24` of a font byte `c`, as an `unsigned int`. -/
def txfPixel (c : Nat) : Nat :=
  if c ≠ 0 then (c ||| c <<< 8 ||| c <<< 16 ||| c <<< 24) % 2 ^ 32 else 0

/-- Function `initTextTexture`.  `loaded` is the result of `txfLoadFont` (`none` for a
null pointer) and `newTexture` the name written by `glGenTextures`.  The result is the
updated globals and the calls made, in order. -/
def initTextTexture (loaded : Option TexFont) (newTexture : Nat) (g : Gfx) :
    Gfx × List GLCall :=
  let g1 := { g with txf := loaded }
  match loaded with
  | some txf =>
    let g2 := { g1 with textureObj := newTexture }
    let txf_pixels :=
      (List.range (txf.tex_width * txf.tex_height).toNat).map
        (fun i => txfPixel (txf.teximage.getD i 0))
    let g3 := { g2 with textSize := (Flt.ofInt txf.tex_width, Flt.ofInt txf.tex_height) }
    (g3,
     [GLCall.printfTxfDimensions txf.tex_width txf.tex_height,
      GLCall.glEnableBlend, GLCall.glBlendFunc, GLCall.glGenTextures,
      GLCall.glBindTexture g2.textureObj,
      GLCall.glTexParameteriWrapS, GLCall.glTexParameteriWrapT,
      GLCall.glTexParameteriMinFilter, GLCall.glTexParameteriMagFilter,
      GLCall.glTexImage2D txf.tex_width txf.tex_height txf_pixels,
      GLCall.updateShaderUniforms g3.textSize])
  | none => (g1, [GLCall.printfErrorLoadingTxf])

/-- Function `redraw` of `hello_text_txf.cpp`: the calls made, in order. -/
def redraw (g : Gfx) : List GLCall :=
  [GLCall.glClear,
   GLCall.glUseProgram g.triShaderProgram,
   GLCall.glBindBuffer g.triangleVbo,
   GLCall.glVertexAttribPointer,
   GLCall.glDrawArrays DrawMode.GL_TRIANGLES 0 3,
   GLCall.glUseProgram g.quadShaderProgram,
   GLCall.glBindBuffer g.quadVbo,
   GLCall.glVertexAttribPointer,
   GLCall.glDrawArrays DrawMode.GL_TRIANGLE_STRIP 0 4,
   GLCall.SDL_GL_SwapWindow]

/-! ## Lemmas on `Flt` -/

namespace Flt

@[simp] theorem fin_add_fin (a b : ℚ) : fin a + fin b = fin (a + b) := rfl
@[simp] theorem fin_sub_fin (a b : ℚ) : fin a - fin b = fin (a - b) := rfl
@[simp] theorem fin_mul_fin (a b : ℚ) : fin a * fin b = fin (a * b) := rfl
@[simp] theorem fin_div_fin (a b : ℚ) :
    fin a / fin b = if b = 0 then undef else fin (a / b) := rfl
@[simp] theorem neg_fin (a : ℚ) : -fin a = fin (-a) := rfl
@[simp] theorem undef_add (x : Flt) : undef + x = undef := rfl
@[simp] theorem add_undef (x : Flt) : x + undef = undef := by cases x <;> rfl
@[simp] theorem undef_sub (x : Flt) : undef - x = undef := rfl
@[simp] theorem sub_undef (x : Flt) : x - undef = undef := by cases x <;> rfl
@[simp] theorem undef_mul (x : Flt) : undef * x = undef := rfl
@[simp] theorem mul_undef (x : Flt) : x * undef = undef := by cases x <;> rfl
@[simp] theorem undef_div (x : Flt) : undef / x = undef := rfl
@[simp] theorem div_undef (x : Flt) : x / undef = undef := by cases x <;> rfl
@[simp] theorem lt_fin_fin (a b : ℚ) : lt (fin a) (fin b) = decide (a < b) := rfl
@[simp] theorem lt_undef (x : Flt) : lt x undef = false := by cases x <;> rfl
@[simp] theorem undef_lt (x : Flt) : lt undef x = false := rfl
@[simp] theorem ge_fin_fin (a b : ℚ) : ge (fin a) (fin b) = decide (b ≤ a) := rfl
@[simp] theorem fabs_fin (a : ℚ) : fabs (fin a) = fin |a| := rfl
@[simp] theorem ofInt_eq (i : Int) : ofInt i = fin (i : ℚ) := rfl

end Flt

/-- On exact numbers `clamp` is `max lo (min val hi)`. -/
theorem clamp_fin (v : ℚ) :
    clamp (Flt.fin v) ZOOM_MIN ZOOM_MAX = Flt.fin (max (1 / 10) (min v 10)) := by
  simp only [clamp, stdMax, stdMin, ZOOM_MIN, ZOOM_MAX, Flt.lt_fin_fin]
  by_cases h1 : (10 : ℚ) < v
  · have h2 : min v 10 = 10 := min_eq_right (le_of_lt h1)
    have h3 : (1 / 10 : ℚ) < 10 := by norm_num
    rw [h2, max_eq_right (le_of_lt h3)]
    simp only [h1, decide_True, if_true, Flt.lt_fin_fin, h3]
  · have h2 : min v 10 = v := min_eq_left (not_lt.mp h1)
    rw [h2]
    simp only [h1, decide_False, Bool.false_eq_true, if_false, Flt.lt_fin_fin]
    by_cases h3 : (1 / 10 : ℚ) < v
    · rw [max_eq_right (le_of_lt h3)]
      simp only [h3, decide_True, if_true]
    · rw [max_eq_left (not_lt.mp h3)]
      simp only [h3, decide_False, Bool.false_eq_true, if_false]

/-- The result of `clamp` to the zoom bounds is an exact number within them, for
every argument. -/
theorem clamp_range (v : Flt) :
    ∃ z : ℚ, clamp v ZOOM_MIN ZOOM_MAX = Flt.fin z ∧ 1 / 10 ≤ z ∧ z ≤ 10 := by
  cases v with
  | undef => exact ⟨1 / 10, by simp [clamp, stdMax, stdMin, ZOOM_MIN, ZOOM_MAX], le_refl _, by norm_num⟩
  | fin v =>
    refine ⟨max (1 / 10) (min v 10), clamp_fin v, le_max_left _ _, ?_⟩
    exact max_le (by norm_num) (min_le_right _ _)

/-! ## Invariants of the event loop -/

/-- A property kept by every single event is kept by every sequence of events. -/
theorem handleEvents_preserves (P : State → Prop) (p : Program)
    (hstep : ∀ s e s1, P s → handleEvent p s e = some s1 → P s1) :
    ∀ (events : List Event) (s s1 : State), P s → handleEvents p s events = some s1 → P s1 := by
  intro events
  induction events with
  | nil =>
    intro s s1 hs h
    simp only [handleEvents, Option.some.injEq] at h
    exact h ▸ hs
  | cons e es ih =>
    intro s s1 hs h
    simp only [handleEvents] at h
    cases he : handleEvent p s e with
    | none => rw [he] at h; cases h
    | some s2 =>
      rw [he] at h
      exact ih s2 s1 (hstep s e s2 hs he) h

/-- A property of the initial state kept by every event holds in every reachable state. -/
theorem reachable_induction (P : State → Prop) (p : Program) (wid : Nat)
    (hinit : P (initialState p wid))
    (hstep : ∀ s e s1, P s → handleEvent p s e = some s1 → P s1)
    (s : State) (h : Reachable p wid s) : P s := by
  obtain ⟨events, hev⟩ := h
  exact handleEvents_preserves P p hstep events _ s hinit hev

theorem zoomInRange_iff (s : State) :
    zoomInRange s = true ↔ ∃ z : ℚ, s.zoom = Flt.fin z ∧ 1 / 10 ≤ z ∧ z ≤ 10 := by
  unfold zoomInRange ZOOM_MIN ZOOM_MAX
  cases hz : s.zoom with
  | undef => simp [Flt.ge]
  | fin z => simp [Flt.ge]

theorem zoomInRange_of_clamp (s : State) (v : Flt) (h : s.zoom = clamp v ZOOM_MIN ZOOM_MAX) :
    zoomInRange s = true := by
  rw [zoomInRange_iff, h]
  exact clamp_range v

theorem zoomEventMouse_zoom (mouseWheelDown : Bool) (x y : Int) (s : State) :
    (zoomEventMouse mouseWheelDown x y s).zoom =
      clamp (s.zoom + (if mouseWheelDown then -MOUSE_WHEEL_ZOOM_DELTA else MOUSE_WHEEL_ZOOM_DELTA))
        ZOOM_MIN ZOOM_MAX := rfl

theorem zoomEventPinch_zoom (pinchDist pinchX pinchY : Flt) (s : State) :
    (zoomEventPinch pinchDist pinchX pinchY s).zoom =
      clamp (s.zoom + pinchDist * PINCH_SCALE) ZOOM_MIN ZOOM_MAX := rfl

/-- Every event keeps the zoom bound. -/
theorem handleEvent_zoomInRange (p : Program) (s : State) (e : Event) (s1 : State)
    (hs : zoomInRange s = true) (h : handleEvent p s e = some s1) : zoomInRange s1 = true := by
  have keep : ∀ t : State, t.zoom = s.zoom → zoomInRange t = true := by
    intro t ht
    unfold zoomInRange at hs ⊢
    rw [ht]; exact hs
  cases e with
  | quit => simp [handleEvent] at h
  | window windowID event data1 data2 =>
    simp only [handleEvent] at h
    split at h
    · cases h
      apply keep
      cases p <;> rfl
    · cases h; exact hs
  | mouseWheel y =>
    simp only [handleEvent, Option.some.injEq] at h
    subst h
    exact zoomInRange_of_clamp _ _ (zoomEventMouse_zoom _ _ _ _)
  | mouseMotion x y =>
    simp only [handleEvent] at h
    split at h <;> cases h <;> exact keep _ rfl
  | mouseButtonDown button x y =>
    simp only [handleEvent] at h
    split at h <;> cases h <;> exact keep _ rfl
  | mouseButtonUp button x y =>
    simp only [handleEvent] at h
    split at h <;> cases h <;> exact keep _ rfl
  | fingerMotion fingerId x y =>
    simp only [handleEvent] at h
    split at h
    · split at h <;> cases h <;> exact keep _ rfl
    · cases h; exact hs
  | fingerDown fingerId x y =>
    simp only [handleEvent] at h
    split at h
    · split at h <;> cases h <;> exact keep _ rfl
    · cases h; exact hs
  | multiGesture numFingers dDist x y =>
    simp only [handleEvent] at h
    split at h
    · cases h
      exact zoomInRange_of_clamp _ _ (zoomEventPinch_zoom _ _ _ _)
    · cases h; exact hs
  | fingerUp fingerId x y =>
    simp only [handleEvent, Option.some.injEq] at h
    subst h; exact keep _ rfl
  | other =>
    simp only [handleEvent, Option.some.injEq] at h
    subst h; exact hs

theorem handleEvents_append (p : Program) (es1 es2 : List Event) (s s1 : State)
    (h : handleEvents p s es1 = some s1) :
    handleEvents p s (es1 ++ es2) = handleEvents p s1 es2 := by
  induction es1 generalizing s with
  | nil =>
    simp only [handleEvents, Option.some.injEq] at h
    subst h; rfl
  | cons e es ih =>
    simp only [handleEvents, List.cons_append] at h ⊢
    cases he : handleEvent p s e with
    | none => rw [he] at h; cases h
    | some s2 =>
      rw [he] at h
      simp only []
      exact ih s2 h

theorem reachable_init (p : Program) (wid : Nat) : Reachable p wid (initialState p wid) :=
  ⟨[], rfl⟩

theorem reachable_step (p : Program) (wid : Nat) (s s1 : State) (e : Event)
    (hs : Reachable p wid s) (he : handleEvent p s e = some s1) : Reachable p wid s1 := by
  obtain ⟨events, hev⟩ := hs
  refine ⟨events ++ [e], ?_⟩
  rw [handleEvents_append p events [e] _ s hev]
  simp only [handleEvents, he]

/-! ## Zoom to point -/

/-- The pan correction of a zoom step: with the pan moved by `post - pre`, the world
coordinate of a device coordinate `d` at the new zoom `z1` is the one it had at the
old zoom `z`. -/
theorem anchor_fixed (d pan : Flt) (z z1 : ℚ) (hz : z ≠ 0) (hz1 : z1 ≠ 0) :
    d / Flt.fin z1 - (pan + ((d / Flt.fin z1 - pan) - (d / Flt.fin z - pan))) =
      d / Flt.fin z - pan := by
  cases d with
  | undef => simp
  | fin d =>
    cases pan with
    | undef => simp
    | fin pan =>
      simp only [Flt.fin_div_fin, hz, hz1, if_false, Flt.fin_sub_fin, Flt.fin_add_fin]
      congr 1
      ring

/-- The new zoom of a zoom step is an exact positive number. -/
theorem clamp_pos (v : Flt) : ∃ z1 : ℚ, clamp v ZOOM_MIN ZOOM_MAX = Flt.fin z1 ∧ z1 ≠ 0 := by
  obtain ⟨z1, h1, h2, _⟩ := clamp_range v
  exact ⟨z1, h1, by intro h0; rw [h0] at h2; norm_num at h2⟩

/-- Zoom to point for `zoomEventPinch`: the world point of the normalized anchor is kept. -/
theorem zoomEventPinch_anchor (s : State) (pinchDist pinchX pinchY : Flt) (z a : ℚ)
    (hz : s.zoom = Flt.fin z) (hz0 : z ≠ 0) (ha : s.aspect = Flt.fin a) :
    normWindowToWorldCoords (zoomEventPinch pinchDist pinchX pinchY s) pinchX pinchY =
      normWindowToWorldCoords s pinchX pinchY := by
  obtain ⟨z1, hc, hz1⟩ := clamp_pos (s.zoom + pinchDist * PINCH_SCALE)
  simp only [normWindowToWorldCoords, deviceToWorldCoords, zoomEventPinch, hc]
  rw [hz, ha]
  exact Prod.ext (anchor_fixed _ _ z z1 hz0 hz1) (anchor_fixed _ _ z z1 hz0 hz1)

/-- Zoom to point for `zoomEventMouse`: the world point of the stored mouse position
is kept. -/
theorem zoomEventMouse_anchor (s : State) (mouseWheelDown : Bool) (x y : Int) (z a : ℚ)
    (hz : s.zoom = Flt.fin z) (hz0 : z ≠ 0) (ha : s.aspect = Flt.fin a) :
    windowToWorldCoords (zoomEventMouse mouseWheelDown x y s) s.mousePositionX s.mousePositionY =
      windowToWorldCoords s s.mousePositionX s.mousePositionY := by
  obtain ⟨z1, hc, hz1⟩ := clamp_pos
    (s.zoom + (if mouseWheelDown then -MOUSE_WHEEL_ZOOM_DELTA else MOUSE_WHEEL_ZOOM_DELTA))
  simp only [windowToWorldCoords, windowToDeviceCoords, deviceToWorldCoords, zoomEventMouse, hc]
  rw [hz, ha]
  exact Prod.ext (anchor_fixed _ _ z z1 hz0 hz1) (anchor_fixed _ _ z z1 hz0 hz1)

/-! ## The flags -/

/-- Every event keeps: while `pinch` is set, `mouseButtonDown` and `fingerDown` are not. -/
theorem handleEvent_pinch_excludes (p : Program) (s : State) (e : Event) (s1 : State)
    (hs : s.pinch = true → s.mouseButtonDown = false ∧ s.fingerDown = false)
    (h : handleEvent p s e = some s1) :
    s1.pinch = true → s1.mouseButtonDown = false ∧ s1.fingerDown = false := by
  cases e with
  | quit => simp [handleEvent] at h
  | window windowID event data1 data2 =>
    simp only [handleEvent] at h
    split at h
    · cases h
      cases p <;> exact hs
    · cases h; exact hs
  | mouseWheel y =>
    simp only [handleEvent, Option.some.injEq] at h
    subst h; exact hs
  | mouseMotion x y =>
    simp only [handleEvent] at h
    split at h <;> cases h <;> exact hs
  | mouseButtonDown button x y =>
    simp only [handleEvent] at h
    split at h
    · rename_i hc
      cases h
      intro hp
      exact absurd hp (by simp [hc.2.2])
    · cases h; exact hs
  | mouseButtonUp button x y =>
    simp only [handleEvent] at h
    split at h
    · cases h
      intro hp
      exact ⟨rfl, (hs hp).2⟩
    · cases h; exact hs
  | fingerMotion fingerId x y =>
    simp only [handleEvent] at h
    split at h
    · split at h <;> cases h <;> exact hs
    · cases h; exact hs
  | fingerDown fingerId x y =>
    simp only [handleEvent] at h
    split at h
    · rename_i hc
      have hnp : s.pinch = false := by simpa using hc
      split at h <;> cases h <;> intro hp <;> exact absurd hp (by simp [hnp])
    · cases h; exact hs
  | multiGesture numFingers dDist x y =>
    simp only [handleEvent] at h
    split at h
    · cases h
      intro _
      exact ⟨rfl, rfl⟩
    · cases h; exact hs
  | fingerUp fingerId x y =>
    simp only [handleEvent, Option.some.injEq] at h
    subst h
    intro hp
    exact absurd hp (by simp)
  | other =>
    simp only [handleEvent, Option.some.injEq] at h
    subst h; exact hs

/-- In a reachable state `pinch` excludes `mouseButtonDown` and `fingerDown`. -/
theorem reachable_pinch_excludes (p : Program) (wid : Nat) (s : State)
    (h : Reachable p wid s) :
    s.pinch = true → s.mouseButtonDown = false ∧ s.fingerDown = false :=
  reachable_induction
    (fun t => t.pinch = true → t.mouseButtonDown = false ∧ t.fingerDown = false) p wid
    (by intro hp; cases p <;> simp [initialState] at hp)
    (fun s e s1 hs he => handleEvent_pinch_excludes p s e s1 hs he) s h

/-! ## Repeated wheel steps -/

/-- One wheel-up step from an in-range zoom `z` gives `min (z + 0.05) 10`. -/
theorem wheel_up_zoom (s : State) (x y : Int) (z : ℚ) (hz : s.zoom = Flt.fin z)
    (hlo : 1 / 10 ≤ z) :
    (zoomEventMouse false x y s).zoom = Flt.fin (min (z + 5 / 100) 10) := by
  rw [zoomEventMouse_zoom, hz]
  simp only [Bool.false_eq_true, if_false, MOUSE_WHEEL_ZOOM_DELTA, Flt.fin_add_fin, clamp_fin]
  congr 1
  apply max_eq_right
  apply le_min
  · linarith
  · norm_num

/-- The zoom after `n` wheel-up steps from an in-range zoom `z`. -/
theorem wheel_up_iterate (x y : Int) (n : ℕ) :
    ∀ (s : State) (z : ℚ), s.zoom = Flt.fin z → 1 / 10 ≤ z → z ≤ 10 →
      ((zoomEventMouse false x y)^[n] s).zoom = Flt.fin (min (z + 5 / 100 * n) 10) := by
  induction n with
  | zero =>
    intro s z hz _ hhi
    simp [hz, min_eq_left hhi]
  | succ n ih =>
    intro s z hz hlo hhi
    rw [Function.iterate_succ_apply]
    have h1 := wheel_up_zoom s x y z hz hlo
    have hlo1 : (1 / 10 : ℚ) ≤ min (z + 5 / 100) 10 := le_min (by linarith) (by norm_num)
    rw [ih _ _ h1 hlo1 (min_le_right _ _)]
    congr 1
    have hn : (0 : ℚ) ≤ n := Nat.cast_nonneg n
    by_cases h : z + 5 / 100 ≤ 10
    · rw [min_eq_left h]
      push_cast
      ring_nf
    · have h2 : (10 : ℚ) ≤ z + 5 / 100 := le_of_lt (not_le.mp h)
      rw [min_eq_right h2, min_eq_right (by linarith), min_eq_right]
      push_cast
      nlinarith

/-! ## The claims -/

/-- C1. Zoom range invariant: every state reachable from the initial state of either
program by a finite sequence of events has `ZOOM_MIN <= zoom <= ZOOM_MAX`, and one
call of `zoomEventMouse` or of `zoomEventPinch` leaves the zoom within these bounds
from every state `s0` (whatever its zoom) and for every argument. -/
theorem zoom_range_invariant (p : Program) (wid : Nat) (s : State)
    (h : Reachable p wid s) (s0 : State) (mouseWheelDown : Bool) (x y : Int)
    (pinchDist pinchX pinchY : Flt) :
    zoomInRange s = true ∧
    zoomInRange (zoomEventMouse mouseWheelDown x y s0) = true ∧
    zoomInRange (zoomEventPinch pinchDist pinchX pinchY s0) = true := by
  refine ⟨?_, zoomInRange_of_clamp _ _ (zoomEventMouse_zoom _ _ _ _),
    zoomInRange_of_clamp _ _ (zoomEventPinch_zoom _ _ _ _)⟩
  refine reachable_induction (fun t => zoomInRange t = true) p wid ?_
    (fun s e s1 hs he => handleEvent_zoomInRange p s e s1 hs he) s h
  cases p <;> simp [zoomInRange, initialState, ZOOM_MIN, ZOOM_MAX, Flt.ge] <;> norm_num

theorem zoom_range_invariant_witness :
    Reachable Program.helloTextTxf 1
      (zoomEventMouse true 0 0 (initialState Program.helloTextTxf 1)) ∧
    (zoomInRange (zoomEventMouse true 0 0 (initialState Program.helloTextTxf 1)) = true ∧
     zoomInRange (zoomEventMouse false 3 4
       { initialState Program.helloTriangle 1 with zoom := Flt.undef }) = true ∧
     zoomInRange (zoomEventPinch (Flt.fin 5) (Flt.fin (1 / 2)) (Flt.fin (1 / 2))
       { initialState Program.helloTriangle 1 with zoom := Flt.undef }) = true) :=
  ⟨reachable_step _ _ _ _ (Event.mouseWheel (-1)) (reachable_init _ _)
     (by simp [handleEvent, initialState]),
   zoom_range_invariant Program.helloTextTxf 1 _
     (reachable_step _ _ _ _ (Event.mouseWheel (-1)) (reachable_init _ _)
       (by simp [handleEvent, initialState]))
     { initialState Program.helloTriangle 1 with zoom := Flt.undef } false 3 4
     (Flt.fin 5) (Flt.fin (1 / 2)) (Flt.fin (1 / 2))⟩

/-- C2, as stated, fails: in the initial state of `hello_triangle.cpp` (zoom 1, aspect 1,
window 640x480, stored mouse position (0, 0)) the call `zoomEventMouse(false, 320, 240)`
moves the world point under pixel (320, 240) from (0, 0) to (-1/21, 1/21). -/
theorem zoomEventMouse_arguments_counterexample :
    zoomInRange (initialState Program.helloTriangle 0) = true ∧
    windowToWorldCoords (initialState Program.helloTriangle 0) 320 240 =
      (Flt.fin 0, Flt.fin 0) ∧
    windowToWorldCoords (zoomEventMouse false 320 240 (initialState Program.helloTriangle 0))
      320 240 = (Flt.fin (-1 / 21), Flt.fin (1 / 21)) ∧
    windowToWorldCoords (zoomEventMouse false 320 240 (initialState Program.helloTriangle 0))
      320 240 ≠ windowToWorldCoords (initialState Program.helloTriangle 0) 320 240 := by
  have h1 : windowToWorldCoords (initialState Program.helloTriangle 0) 320 240 =
      (Flt.fin 0, Flt.fin 0) := by
    simp [windowToWorldCoords, windowToDeviceCoords, normWindowToDeviceCoords,
      deviceToWorldCoords, initialState]
    norm_num
  have h2 : windowToWorldCoords
      (zoomEventMouse false 320 240 (initialState Program.helloTriangle 0)) 320 240 =
      (Flt.fin (-1 / 21), Flt.fin (1 / 21)) := by
    simp [windowToWorldCoords, windowToDeviceCoords, normWindowToDeviceCoords,
      deviceToWorldCoords, initialState, zoomEventMouse, clamp, stdMax, stdMin, ZOOM_MIN,
      ZOOM_MAX, MOUSE_WHEEL_ZOOM_DELTA]
    norm_num
  refine ⟨by simp [zoomInRange, initialState, ZOOM_MIN, ZOOM_MAX, Flt.ge]; norm_num, h1, h2, ?_⟩
  rw [h1, h2]
  intro h
  have h3 := congrArg Prod.fst h
  simp at h3

/-- C2, amended. Zoom-to-point (mouse variant) holds for the stored mouse position, which
is what `handleEvents` passes as `(x, y)`: for every state with 0.1 <= zoom <= 10.0,
nonzero aspect and positive window width and height, if `(x, y)` is
`(mousePositionX, mousePositionY)` then `windowToWorldCoords(x, y)` is the same before and
after `zoomEventMouse(mouseWheelDown, x, y)`; it is a pair of exact numbers when `pan` is. -/
theorem zoomEventMouse_keeps_mouse_point (s : State) (mouseWheelDown : Bool) (x y : Int)
    (a : ℚ) (hz : zoomInRange s = true) (ha : s.aspect = Flt.fin a) (ha0 : a ≠ 0)
    (hw : 0 < s.windowWidth) (hh : 0 < s.windowHeight)
    (hx : x = s.mousePositionX) (hy : y = s.mousePositionY) :
    windowToWorldCoords (zoomEventMouse mouseWheelDown x y s) x y = windowToWorldCoords s x y ∧
    (∀ px py : ℚ, s.pan = (Flt.fin px, Flt.fin py) →
      ∃ wx wy : ℚ, windowToWorldCoords s x y = (Flt.fin wx, Flt.fin wy)) := by
  obtain ⟨z, hzz, hlo, _⟩ := (zoomInRange_iff s).mp hz
  have hz0 : z ≠ 0 := by intro h0; rw [h0] at hlo; norm_num at hlo
  subst hx hy
  refine ⟨zoomEventMouse_anchor s mouseWheelDown _ _ z a hzz hz0 ha, ?_⟩
  intro px py hp
  have hw0 : (s.windowWidth : ℚ) ≠ 0 := by exact_mod_cast ne_of_gt hw
  have hh0 : (s.windowHeight : ℚ) ≠ 0 := by exact_mod_cast ne_of_gt hh
  simp only [windowToWorldCoords, windowToDeviceCoords, normWindowToDeviceCoords,
    deviceToWorldCoords, hzz, ha, hp, Flt.ofInt_eq, Flt.fin_div_fin, hw0, hh0, hz0, ha0,
    if_false, Flt.fin_sub_fin, Flt.fin_mul_fin]
  exact ⟨_, _, rfl⟩

theorem zoomEventMouse_keeps_mouse_point_witness :
    windowToWorldCoords
        (zoomEventMouse false 0 0 (initialState Program.helloTriangle 0)) 0 0 =
      windowToWorldCoords (initialState Program.helloTriangle 0) 0 0 ∧
    (∀ px py : ℚ, (initialState Program.helloTriangle 0).pan = (Flt.fin px, Flt.fin py) →
      ∃ wx wy : ℚ,
        windowToWorldCoords (initialState Program.helloTriangle 0) 0 0 =
          (Flt.fin wx, Flt.fin wy)) :=
  zoomEventMouse_keeps_mouse_point (initialState Program.helloTriangle 0) false 0 0 1
    (by simp [zoomInRange, initialState, ZOOM_MIN, ZOOM_MAX, Flt.ge]; norm_num)
    rfl (by norm_num) (by simp [initialState]) (by simp [initialState]) rfl rfl

/-- C3. Zoom-to-point (pinch variant): for every state with 0.1 <= zoom <= 10.0 and
nonzero aspect, every normalized anchor `(pinchX, pinchY)` and every `pinchDist`,
`normWindowToWorldCoords(pinchX, pinchY)` is the same before and after
`zoomEventPinch(pinchDist, pinchX, pinchY)` (a pair of exact numbers when `pan` is), and
the new zoom is `clamp(zoom + 8 * pinchDist, 0.1, 10.0)`. -/
theorem zoomEventPinch_keeps_anchor (s : State) (pinchDist pinchX pinchY : ℚ) (z a : ℚ)
    (hz : s.zoom = Flt.fin z) (hlo : 1 / 10 ≤ z) (_hhi : z ≤ 10)
    (ha : s.aspect = Flt.fin a) (ha0 : a ≠ 0) :
    normWindowToWorldCoords
        (zoomEventPinch (Flt.fin pinchDist) (Flt.fin pinchX) (Flt.fin pinchY) s)
        (Flt.fin pinchX) (Flt.fin pinchY) =
      normWindowToWorldCoords s (Flt.fin pinchX) (Flt.fin pinchY) ∧
    (∀ px py : ℚ, s.pan = (Flt.fin px, Flt.fin py) →
      ∃ wx wy : ℚ,
        normWindowToWorldCoords s (Flt.fin pinchX) (Flt.fin pinchY) =
          (Flt.fin wx, Flt.fin wy)) ∧
    (zoomEventPinch (Flt.fin pinchDist) (Flt.fin pinchX) (Flt.fin pinchY) s).zoom =
      clamp (Flt.fin (z + 8 * pinchDist)) ZOOM_MIN ZOOM_MAX ∧
    (zoomEventPinch (Flt.fin pinchDist) (Flt.fin pinchX) (Flt.fin pinchY) s).zoom =
      Flt.fin (max (1 / 10) (min (z + 8 * pinchDist) 10)) := by
  have hz0 : z ≠ 0 := by intro h0; rw [h0] at hlo; norm_num at hlo
  have hzoom : (zoomEventPinch (Flt.fin pinchDist) (Flt.fin pinchX) (Flt.fin pinchY) s).zoom =
      clamp (Flt.fin (z + 8 * pinchDist)) ZOOM_MIN ZOOM_MAX := by
    rw [zoomEventPinch_zoom, hz, PINCH_SCALE, Flt.fin_mul_fin, Flt.fin_add_fin,
      mul_comm pinchDist 8]
  refine ⟨zoomEventPinch_anchor s _ _ _ z a hz hz0 ha, ?_, hzoom, ?_⟩
  · intro px py hp
    simp only [normWindowToWorldCoords, normWindowToDeviceCoords, deviceToWorldCoords, hz, ha,
      hp, Flt.fin_div_fin, hz0, ha0, if_false, Flt.fin_sub_fin, Flt.fin_mul_fin]
    exact ⟨_, _, rfl⟩
  · rw [hzoom, clamp_fin]

theorem zoomEventPinch_keeps_anchor_witness :
    normWindowToWorldCoords
        (zoomEventPinch (Flt.fin (1 / 100)) (Flt.fin (1 / 4)) (Flt.fin (3 / 4))
          (initialState Program.helloTriangle 0))
        (Flt.fin (1 / 4)) (Flt.fin (3 / 4)) =
      normWindowToWorldCoords (initialState Program.helloTriangle 0)
        (Flt.fin (1 / 4)) (Flt.fin (3 / 4)) ∧
    (∀ px py : ℚ, (initialState Program.helloTriangle 0).pan = (Flt.fin px, Flt.fin py) →
      ∃ wx wy : ℚ,
        normWindowToWorldCoords (initialState Program.helloTriangle 0)
          (Flt.fin (1 / 4)) (Flt.fin (3 / 4)) = (Flt.fin wx, Flt.fin wy)) ∧
    (zoomEventPinch (Flt.fin (1 / 100)) (Flt.fin (1 / 4)) (Flt.fin (3 / 4))
        (initialState Program.helloTriangle 0)).zoom =
      clamp (Flt.fin (1 + 8 * (1 / 100))) ZOOM_MIN ZOOM_MAX ∧
    (zoomEventPinch (Flt.fin (1 / 100)) (Flt.fin (1 / 4)) (Flt.fin (3 / 4))
        (initialState Program.helloTriangle 0)).zoom =
      Flt.fin (max (1 / 10) (min (1 + 8 * (1 / 100)) 10)) :=
  zoomEventPinch_keeps_anchor (initialState Program.helloTriangle 0) (1 / 100) (1 / 4) (3 / 4)
    1 1 rfl (by norm_num) (by norm_num) rfl (by norm_num)

/-- C4. With exact numbers for pan, zoom != 0 and aspect != 0, `deviceToWorldCoords` is
the two-sided inverse of the vertex-shader transform
`forward(w) = ((w.x + pan.x) * zoom, (w.y + pan.y) * zoom * aspect)`:
`deviceToWorldCoords(forward(w)) = w` and `forward(deviceToWorldCoords(d)) = d`. -/
theorem deviceToWorldCoords_inverse (s : State) (z a px py : ℚ)
    (hz : s.zoom = Flt.fin z) (hz0 : z ≠ 0) (ha : s.aspect = Flt.fin a) (ha0 : a ≠ 0)
    (hp : s.pan = (Flt.fin px, Flt.fin py)) (wx wy dx dy : ℚ) :
    vertexShader s (Flt.fin wx, Flt.fin wy) =
      (Flt.fin ((wx + px) * z), Flt.fin ((wy + py) * z * a)) ∧
    deviceToWorldCoords s (vertexShader s (Flt.fin wx, Flt.fin wy)).1
      (vertexShader s (Flt.fin wx, Flt.fin wy)).2 = (Flt.fin wx, Flt.fin wy) ∧
    vertexShader s (deviceToWorldCoords s (Flt.fin dx) (Flt.fin dy)) =
      (Flt.fin dx, Flt.fin dy) := by
  refine ⟨?_, ?_, ?_⟩
  · simp only [vertexShader, hz, ha, hp, Flt.fin_add_fin, Flt.fin_mul_fin]
  · simp only [vertexShader, deviceToWorldCoords, hz, ha, hp, Flt.fin_add_fin,
      Flt.fin_mul_fin, Flt.fin_div_fin, hz0, ha0, if_false, Flt.fin_sub_fin]
    refine Prod.ext ?_ ?_ <;> simp only [Flt.fin.injEq] <;> field_simp
  · simp only [vertexShader, deviceToWorldCoords, hz, ha, hp, Flt.fin_add_fin,
      Flt.fin_mul_fin, Flt.fin_div_fin, hz0, ha0, if_false, Flt.fin_sub_fin]
    refine Prod.ext ?_ ?_ <;> simp only [Flt.fin.injEq] <;> field_simp <;> ring

theorem deviceToWorldCoords_inverse_witness :
    vertexShader { initialState Program.helloTriangle 0 with
        zoom := Flt.fin 2, aspect := Flt.fin (4 / 3), pan := (Flt.fin 1, Flt.fin (-1)) }
        (Flt.fin 3, Flt.fin 5) =
      (Flt.fin ((3 + 1) * 2), Flt.fin ((5 + -1) * 2 * (4 / 3))) ∧
    deviceToWorldCoords { initialState Program.helloTriangle 0 with
        zoom := Flt.fin 2, aspect := Flt.fin (4 / 3), pan := (Flt.fin 1, Flt.fin (-1)) }
        (vertexShader { initialState Program.helloTriangle 0 with
          zoom := Flt.fin 2, aspect := Flt.fin (4 / 3), pan := (Flt.fin 1, Flt.fin (-1)) }
          (Flt.fin 3, Flt.fin 5)).1
        (vertexShader { initialState Program.helloTriangle 0 with
          zoom := Flt.fin 2, aspect := Flt.fin (4 / 3), pan := (Flt.fin 1, Flt.fin (-1)) }
          (Flt.fin 3, Flt.fin 5)).2 = (Flt.fin 3, Flt.fin 5) ∧
    vertexShader { initialState Program.helloTriangle 0 with
        zoom := Flt.fin 2, aspect := Flt.fin (4 / 3), pan := (Flt.fin 1, Flt.fin (-1)) }
        (deviceToWorldCoords { initialState Program.helloTriangle 0 with
          zoom := Flt.fin 2, aspect := Flt.fin (4 / 3), pan := (Flt.fin 1, Flt.fin (-1)) }
          (Flt.fin (1 / 2)) (Flt.fin (-1 / 2))) = (Flt.fin (1 / 2), Flt.fin (-1 / 2)) :=
  deviceToWorldCoords_inverse _ 2 (4 / 3) 1 (-1) rfl (by norm_num) rfl (by norm_num) rfl
    3 5 (1 / 2) (-1 / 2)

/-- C5, as stated, fails: from the initial state a left-button-down followed by a
finger-down leaves both `mouseButtonDown` and `fingerDown` set. -/
theorem flags_exclusive_counterexample :
    (handleEvents Program.helloTriangle (initialState Program.helloTriangle 0)
        [Event.mouseButtonDown SDL_BUTTON_LEFT 10 10,
         Event.fingerDown 7 (Flt.fin (1 / 2)) (Flt.fin (1 / 2))]).map
      (fun s => (s.mouseButtonDown, s.fingerDown, s.pinch)) = some (true, true, false) := by
  simp [handleEvents, handleEvent, initialState, SDL_BUTTON_LEFT]

/-- C5, amended. In every state reachable from the initial state by a finite sequence of
events, `pinch` is not true together with `mouseButtonDown` or with `fingerDown`. -/
theorem pinch_excludes_drag (p : Program) (wid : Nat) (s : State) (h : Reachable p wid s) :
    ¬ (s.pinch = true ∧ s.mouseButtonDown = true) ∧
    ¬ (s.pinch = true ∧ s.fingerDown = true) := by
  have hinv := reachable_pinch_excludes p wid s h
  constructor
  · rintro ⟨hp, hm⟩
    rw [(hinv hp).1] at hm
    cases hm
  · rintro ⟨hp, hf⟩
    rw [(hinv hp).2] at hf
    cases hf

theorem pinch_excludes_drag_witness :
    ¬ ((zoomEventPinch (Flt.fin 1) (Flt.fin (1 / 2)) (Flt.fin (1 / 2))
          { initialState Program.helloTriangle 0 with
            pinch := true, fingerDown := false, mouseButtonDown := false }).pinch = true ∧
       (zoomEventPinch (Flt.fin 1) (Flt.fin (1 / 2)) (Flt.fin (1 / 2))
          { initialState Program.helloTriangle 0 with
            pinch := true, fingerDown := false, mouseButtonDown := false }).mouseButtonDown
         = true) ∧
    ¬ ((zoomEventPinch (Flt.fin 1) (Flt.fin (1 / 2)) (Flt.fin (1 / 2))
          { initialState Program.helloTriangle 0 with
            pinch := true, fingerDown := false, mouseButtonDown := false }).pinch = true ∧
       (zoomEventPinch (Flt.fin 1) (Flt.fin (1 / 2)) (Flt.fin (1 / 2))
          { initialState Program.helloTriangle 0 with
            pinch := true, fingerDown := false, mouseButtonDown := false }).fingerDown
         = true) :=
  pinch_excludes_drag Program.helloTriangle 0 _
    (reachable_step _ _ _ _
      (Event.multiGesture 2 (Flt.fin 1) (Flt.fin (1 / 2)) (Flt.fin (1 / 2)))
      (reachable_init _ _)
      (by simp [handleEvent, PINCH_ZOOM_THRESHOLD, Flt.ge]; norm_num))

/-- C6. Pinch has priority over finger drag: in every state with `pinch` set, a
finger-down event (any finger id, any position) leaves the whole state unchanged. -/
theorem fingerDown_ignored_while_pinch (p : Program) (s : State) (fingerId : Int)
    (x y : Flt) (hp : s.pinch = true) :
    handleEvent p s (Event.fingerDown fingerId x y) = some s := by
  simp [handleEvent, hp]

theorem fingerDown_ignored_while_pinch_witness :
    handleEvent Program.helloTriangle
        { initialState Program.helloTriangle 0 with pinch := true }
        (Event.fingerDown 3 (Flt.fin (1 / 4)) (Flt.fin (3 / 4))) =
      some { initialState Program.helloTriangle 0 with pinch := true } :=
  fingerDown_ignored_while_pinch Program.helloTriangle _ 3 (Flt.fin (1 / 4)) (Flt.fin (3 / 4))
    rfl

/-- C7, as stated, fails: after a left-button-down and a finger-down (a reachable state
with `fingerDown` set), a further finger-down leaves `mouseButtonDown` set, so the state
is not Idle. -/
theorem second_fingerDown_counterexample :
    (handleEvents Program.helloTriangle (initialState Program.helloTriangle 0)
        [Event.mouseButtonDown SDL_BUTTON_LEFT 10 10,
         Event.fingerDown 7 (Flt.fin (1 / 2)) (Flt.fin (1 / 2))]).map
      (fun s => s.fingerDown) = some true ∧
    (handleEvents Program.helloTriangle (initialState Program.helloTriangle 0)
        [Event.mouseButtonDown SDL_BUTTON_LEFT 10 10,
         Event.fingerDown 7 (Flt.fin (1 / 2)) (Flt.fin (1 / 2)),
         Event.fingerDown 8 (Flt.fin (1 / 4)) (Flt.fin (1 / 4))]).map
      (fun s => (s.mouseButtonDown, s.fingerDown, s.pinch)) = some (true, false, false) := by
  simp [handleEvents, handleEvent, initialState, SDL_BUTTON_LEFT]

/-- C7, amended. From every reachable state in which `fingerDown` is true, a further
finger-down event clears `fingerDown` and changes nothing else: afterwards `fingerDown`
and `pinch` are false, and `mouseButtonDown`, `pan`, `zoom` and `basePan` are as before
(so none of the three flags is set exactly when `mouseButtonDown` was not set). -/
theorem second_fingerDown_clears_fingerDown (p : Program) (wid : Nat) (s : State)
    (fingerId : Int) (x y : Flt) (h : Reachable p wid s) (hf : s.fingerDown = true) :
    ∃ s1, handleEvent p s (Event.fingerDown fingerId x y) = some s1 ∧
      s1 = { s with fingerDown := false } ∧
      s1.fingerDown = false ∧ s1.pinch = false ∧ s1.mouseButtonDown = s.mouseButtonDown ∧
      s1.pan = s.pan ∧ s1.zoom = s.zoom ∧ s1.basePan = s.basePan := by
  have hnp : s.pinch = false := by
    cases hpinch : s.pinch with
    | false => rfl
    | true =>
      have := (reachable_pinch_excludes p wid s h hpinch).2
      rw [hf] at this
      cases this
  have hstep : handleEvent p s (Event.fingerDown fingerId x y) =
      some { s with fingerDown := false } := by
    simp [handleEvent, hnp, hf]
  exact ⟨_, hstep, rfl, rfl, hnp, rfl, rfl, rfl, rfl⟩

theorem second_fingerDown_clears_fingerDown_witness :
    ∃ s1, handleEvent Program.helloTriangle
        { initialState Program.helloTriangle 0 with
          fingerDown := true, fingerDownX := Flt.fin (1 / 2), fingerDownY := Flt.fin (1 / 2),
          fingerDownId := 7, basePan := (Flt.fin 0, Flt.fin 0) }
        (Event.fingerDown 8 (Flt.fin (1 / 4)) (Flt.fin (1 / 4))) = some s1 ∧
      s1 = { initialState Program.helloTriangle 0 with
          fingerDown := false, fingerDownX := Flt.fin (1 / 2),
          fingerDownY := Flt.fin (1 / 2), fingerDownId := 7,
          basePan := (Flt.fin 0, Flt.fin 0) } ∧
      s1.fingerDown = false ∧ s1.pinch = false ∧
      s1.mouseButtonDown = (initialState Program.helloTriangle 0).mouseButtonDown ∧
      s1.pan = (initialState Program.helloTriangle 0).pan ∧
      s1.zoom = (initialState Program.helloTriangle 0).zoom ∧
      s1.basePan = (Flt.fin 0, Flt.fin 0) :=
  second_fingerDown_clears_fingerDown Program.helloTriangle 0
    { initialState Program.helloTriangle 0 with
      fingerDown := true, fingerDownX := Flt.fin (1 / 2), fingerDownY := Flt.fin (1 / 2),
      fingerDownId := 7, basePan := (Flt.fin 0, Flt.fin 0) }
    8 (Flt.fin (1 / 4)) (Flt.fin (1 / 4))
    (reachable_step _ _ _ _ (Event.fingerDown 7 (Flt.fin (1 / 2)) (Flt.fin (1 / 2)))
      (reachable_init _ _) (by simp [handleEvent, initialState]))
    rfl

/-- C8. Saturation at the maximum: from every zoom `z` in [0.1, 10.0], `n` consecutive
wheel-up calls of `zoomEventMouse` give zoom `min(z + 0.05 * n, 10.0)`, which never
exceeds 10.0; from a zoom of 9.98 the zoom is exactly 10.0 after the first call and after
every later call. -/
theorem wheel_up_saturates (s : State) (z : ℚ) (n : ℕ) (x y : Int)
    (hz : s.zoom = Flt.fin z) (hlo : 1 / 10 ≤ z) (hhi : z ≤ 10) :
    ((zoomEventMouse false x y)^[n] s).zoom = Flt.fin (min (z + 5 / 100 * n) 10) ∧
    min (z + 5 / 100 * (n : ℚ)) 10 ≤ 10 ∧
    (z = 998 / 100 → 1 ≤ n → ((zoomEventMouse false x y)^[n] s).zoom = Flt.fin 10) := by
  have h := wheel_up_iterate x y n s z hz hlo hhi
  refine ⟨h, min_le_right _ _, ?_⟩
  intro hz9 hn
  rw [h]
  congr 1
  apply min_eq_right
  have h1 : (1 : ℚ) ≤ n := by exact_mod_cast hn
  rw [hz9]
  linarith

theorem wheel_up_saturates_witness :
    ((zoomEventMouse false 0 0)^[3]
        { initialState Program.helloTriangle 0 with zoom := Flt.fin (998 / 100) }).zoom =
      Flt.fin (min (998 / 100 + 5 / 100 * (3 : ℕ)) 10) ∧
    min ((998 / 100 : ℚ) + 5 / 100 * ((3 : ℕ) : ℚ)) 10 ≤ 10 ∧
    ((zoomEventMouse false 0 0)^[3]
        { initialState Program.helloTriangle 0 with zoom := Flt.fin (998 / 100) }).zoom =
      Flt.fin 10 :=
  have h := wheel_up_saturates
    { initialState Program.helloTriangle 0 with zoom := Flt.fin (998 / 100) }
    (998 / 100) 3 0 0 rfl (by norm_num) (by norm_num)
  ⟨h.1, h.2.1, h.2.2 rfl (by decide)⟩

/-- C9, as stated, fails where a divisor is zero, each time with pan (0, 0) before the
call and the stored mouse position at the window center. Window 0x0 and mouse (0, 0):
`winX / (float)windowWidth` is 0/0 and both pan components are lost. Window 640x480, mouse
(320, 240) and zoom 0: `deviceX / zoom` is 0/0. The same with zoom 1 and aspect 0:
`deviceY / aspect` is 0/0 and the second pan component is lost. -/
theorem zoom_at_center_counterexample :
    (zoomEventMouse false 0 0
        { initialState Program.helloTriangle 0 with
          windowWidth := 0, windowHeight := 0 }).pan = (Flt.undef, Flt.undef) ∧
    (zoomEventMouse false 320 240
        { initialState Program.helloTriangle 0 with
          zoom := Flt.fin 0, mousePositionX := 320, mousePositionY := 240 }).pan =
      (Flt.undef, Flt.undef) ∧
    (zoomEventMouse false 320 240
        { initialState Program.helloTriangle 0 with
          aspect := Flt.fin 0, mousePositionX := 320, mousePositionY := 240 }).pan =
      (Flt.fin 0, Flt.undef) ∧
    (initialState Program.helloTriangle 0).pan = (Flt.fin 0, Flt.fin 0) ∧
    (initialState Program.helloTriangle 0).mousePositionX = 0 ∧
    (initialState Program.helloTriangle 0).mousePositionY = 0 := by
  refine ⟨?_, ?_, ?_, rfl, rfl, rfl⟩
  · simp [zoomEventMouse, windowToWorldCoords, windowToDeviceCoords, normWindowToDeviceCoords,
      deviceToWorldCoords, initialState]
  · simp [zoomEventMouse, windowToWorldCoords, windowToDeviceCoords, normWindowToDeviceCoords,
      deviceToWorldCoords, initialState]
  · simp [zoomEventMouse, windowToWorldCoords, windowToDeviceCoords, normWindowToDeviceCoords,
      deviceToWorldCoords, initialState, clamp, stdMax, stdMin, ZOOM_MIN, ZOOM_MAX,
      MOUSE_WHEEL_ZOOM_DELTA]
    norm_num

/-- C9, amended. Zooming at the exact window center leaves pan unchanged: for every state
with nonzero window width and height and exact nonzero zoom and aspect, in which the
anchor pixel `(x, y)`, the stored mouse position, satisfies 2x = windowWidth and
2y = windowHeight, `zoomEventMouse` changes zoom to `clamp(zoom + delta, 0.1, 10.0)` and
leaves pan exactly as it was; with pan (0,0), zoom 1, aspect 1, window 640x480 and the
mouse at (320, 240) a wheel-up step gives zoom 1.05 and pan (0,0). -/
theorem zoom_at_center_keeps_pan (s : State) (mouseWheelDown : Bool) (x y : Int) (z a : ℚ)
    (hz : s.zoom = Flt.fin z) (hz0 : z ≠ 0) (ha : s.aspect = Flt.fin a) (ha0 : a ≠ 0)
    (hw : s.windowWidth ≠ 0) (hh : s.windowHeight ≠ 0)
    (hx : x = s.mousePositionX) (hy : y = s.mousePositionY)
    (hcx : 2 * x = s.windowWidth) (hcy : 2 * y = s.windowHeight) :
    ((zoomEventMouse mouseWheelDown x y s).zoom =
        clamp (s.zoom +
          (if mouseWheelDown then -MOUSE_WHEEL_ZOOM_DELTA else MOUSE_WHEEL_ZOOM_DELTA))
          ZOOM_MIN ZOOM_MAX ∧
      (zoomEventMouse mouseWheelDown x y s).pan = s.pan) ∧
    (zoomEventMouse false 320 240
        { initialState Program.helloTriangle 0 with
          mousePositionX := 320, mousePositionY := 240 }).zoom = Flt.fin (105 / 100) ∧
    (zoomEventMouse false 320 240
        { initialState Program.helloTriangle 0 with
          mousePositionX := 320, mousePositionY := 240 }).pan = (Flt.fin 0, Flt.fin 0) := by
  refine ⟨⟨rfl, ?_⟩, ?_, ?_⟩
  · obtain ⟨z1, hc, hz1⟩ := clamp_pos
      (s.zoom + (if mouseWheelDown then -MOUSE_WHEEL_ZOOM_DELTA else MOUSE_WHEEL_ZOOM_DELTA))
    subst hx hy
    have hw0 : (s.windowWidth : ℚ) ≠ 0 := by exact_mod_cast hw
    have hh0 : (s.windowHeight : ℚ) ≠ 0 := by exact_mod_cast hh
    have hwq : (s.windowWidth : ℚ) = 2 * (s.mousePositionX : ℚ) := by exact_mod_cast hcx.symm
    have hhq : (s.windowHeight : ℚ) = 2 * (s.mousePositionY : ℚ) := by exact_mod_cast hcy.symm
    have hmx : (s.mousePositionX : ℚ) ≠ 0 := by
      intro h0; apply hw0; rw [hwq, h0, mul_zero]
    have hmy : (s.mousePositionY : ℚ) ≠ 0 := by
      intro h0; apply hh0; rw [hhq, h0, mul_zero]
    have hX : (s.mousePositionX : ℚ) / (s.windowWidth : ℚ) - 1 / 2 = 0 := by
      rw [hwq]; field_simp; ring
    have hY : 1 - (s.mousePositionY : ℚ) / (s.windowHeight : ℚ) - 1 / 2 = 0 := by
      rw [hhq]; field_simp; ring
    rw [hz] at hc
    simp only [zoomEventMouse, windowToWorldCoords, windowToDeviceCoords,
      normWindowToDeviceCoords, deviceToWorldCoords, hz, hc, ha, Flt.ofInt_eq,
      Flt.fin_div_fin, hw0, hh0, hz0, hz1, ha0, if_false, Flt.fin_sub_fin, Flt.fin_mul_fin,
      hX, hY, zero_mul, zero_div]
    cases hp1 : s.pan.1 <;> cases hp2 : s.pan.2 <;>
      simp [Prod.ext_iff, hp1, hp2]
  · simp [zoomEventMouse, initialState, clamp, stdMax, stdMin, ZOOM_MIN, ZOOM_MAX,
      MOUSE_WHEEL_ZOOM_DELTA]
    norm_num
  · simp [zoomEventMouse, windowToWorldCoords, windowToDeviceCoords, normWindowToDeviceCoords,
      deviceToWorldCoords, initialState, clamp, stdMax, stdMin, ZOOM_MIN, ZOOM_MAX,
      MOUSE_WHEEL_ZOOM_DELTA]
    norm_num

theorem zoom_at_center_keeps_pan_witness :
    ((zoomEventMouse true 400 300
          { initialState Program.helloTextTxf 0 with
            windowWidth := 800, windowHeight := 600, aspect := Flt.fin (4 / 3),
            pan := (Flt.fin 3, Flt.fin (-2)),
            mousePositionX := 400, mousePositionY := 300 }).zoom =
        clamp (Flt.fin (18 / 10) +
          (if true then -MOUSE_WHEEL_ZOOM_DELTA else MOUSE_WHEEL_ZOOM_DELTA))
          ZOOM_MIN ZOOM_MAX ∧
      (zoomEventMouse true 400 300
          { initialState Program.helloTextTxf 0 with
            windowWidth := 800, windowHeight := 600, aspect := Flt.fin (4 / 3),
            pan := (Flt.fin 3, Flt.fin (-2)),
            mousePositionX := 400, mousePositionY := 300 }).pan =
        (Flt.fin 3, Flt.fin (-2))) ∧
    (zoomEventMouse false 320 240
        { initialState Program.helloTriangle 0 with
          mousePositionX := 320, mousePositionY := 240 }).zoom = Flt.fin (105 / 100) ∧
    (zoomEventMouse false 320 240
        { initialState Program.helloTriangle 0 with
          mousePositionX := 320, mousePositionY := 240 }).pan = (Flt.fin 0, Flt.fin 0) :=
  zoom_at_center_keeps_pan
    { initialState Program.helloTextTxf 0 with
      windowWidth := 800, windowHeight := 600, aspect := Flt.fin (4 / 3),
      pan := (Flt.fin 3, Flt.fin (-2)), mousePositionX := 400, mousePositionY := 300 }
    true 400 300 (18 / 10) (4 / 3) rfl (by norm_num) rfl (by norm_num)
    (by decide) (by decide) rfl rfl (by decide) (by decide)

/-- C10. Mouse drag formula: from a state with `fingerDown = pinch = false`, a
left-button-down at `(x0, y0)` is accepted and snapshots `basePan = pan`; a mouse-motion
event to `(x1, y1)` then sets `pan = basePan + (dX / zoom, dY / zoom / aspect)` with
`(dX, dY) = windowToDeviceCoords(windowWidth/2 + (x1 - x0), windowHeight/2 + (y1 - y0))`
(integer halving). With window 640x480, zoom 2, aspect 1, down at (100,100) and a move to
(150,130), `pan - basePan` is (0.078125, -0.0625). -/
theorem mouse_drag_formula (p : Program) (s : State) (x0 y0 x1 y1 : Int)
    (hf : s.fingerDown = false) (hp : s.pinch = false) :
    (∃ s1 s2 : State,
      handleEvent p s (Event.mouseButtonDown SDL_BUTTON_LEFT x0 y0) = some s1 ∧
      s1.mouseButtonDown = true ∧ s1.basePan = s.pan ∧
      handleEvent p s1 (Event.mouseMotion x1 y1) = some s2 ∧
      s2.basePan = s.pan ∧
      s2.pan =
        (s2.basePan.1 +
            (windowToDeviceCoords s (Int.tdiv s.windowWidth 2 + (x1 - x0))
              (Int.tdiv s.windowHeight 2 + (y1 - y0))).1 / s.zoom,
         s2.basePan.2 +
            (windowToDeviceCoords s (Int.tdiv s.windowWidth 2 + (x1 - x0))
              (Int.tdiv s.windowHeight 2 + (y1 - y0))).2 / s.zoom / s.aspect)) ∧
    (handleEvents Program.helloTriangle
        { initialState Program.helloTriangle 0 with zoom := Flt.fin 2 }
        [Event.mouseButtonDown SDL_BUTTON_LEFT 100 100, Event.mouseMotion 150 130]).map
      (fun t => (t.pan.1 - t.basePan.1, t.pan.2 - t.basePan.2)) =
      some (Flt.fin (78125 / 1000000), Flt.fin (-625 / 10000)) := by
  constructor
  · refine ⟨{ s with mouseButtonDown := true, mouseButtonDownX := x0, mouseButtonDownY := y0,
                     basePan := (s.pan.1, s.pan.2) },
      panEventMouse x1 y1
        { s with mouseButtonDown := true, mouseButtonDownX := x0, mouseButtonDownY := y0,
                 basePan := (s.pan.1, s.pan.2), mousePositionX := x1, mousePositionY := y1 },
      ?_, rfl, rfl, ?_, rfl, rfl⟩
    · simp [handleEvent, hf, hp]
    · simp [handleEvent, hf, hp]
  · simp [handleEvents, handleEvent, initialState, SDL_BUTTON_LEFT, panEventMouse,
      windowToDeviceCoords, normWindowToDeviceCoords]
    norm_num [Int.tdiv]

theorem mouse_drag_formula_witness :
    (∃ s1 s2 : State,
      handleEvent Program.helloTextTxf (initialState Program.helloTextTxf 0)
        (Event.mouseButtonDown SDL_BUTTON_LEFT 100 100) = some s1 ∧
      s1.mouseButtonDown = true ∧ s1.basePan = (initialState Program.helloTextTxf 0).pan ∧
      handleEvent Program.helloTextTxf s1 (Event.mouseMotion 150 130) = some s2 ∧
      s2.basePan = (initialState Program.helloTextTxf 0).pan ∧
      s2.pan =
        (s2.basePan.1 +
            (windowToDeviceCoords (initialState Program.helloTextTxf 0)
              (Int.tdiv (initialState Program.helloTextTxf 0).windowWidth 2 + (150 - 100))
              (Int.tdiv (initialState Program.helloTextTxf 0).windowHeight 2 +
                (130 - 100))).1 / (initialState Program.helloTextTxf 0).zoom,
         s2.basePan.2 +
            (windowToDeviceCoords (initialState Program.helloTextTxf 0)
              (Int.tdiv (initialState Program.helloTextTxf 0).windowWidth 2 + (150 - 100))
              (Int.tdiv (initialState Program.helloTextTxf 0).windowHeight 2 +
                (130 - 100))).2 / (initialState Program.helloTextTxf 0).zoom /
              (initialState Program.helloTextTxf 0).aspect)) ∧
    (handleEvents Program.helloTriangle
        { initialState Program.helloTriangle 0 with zoom := Flt.fin 2 }
        [Event.mouseButtonDown SDL_BUTTON_LEFT 100 100, Event.mouseMotion 150 130]).map
      (fun t => (t.pan.1 - t.basePan.1, t.pan.2 - t.basePan.2)) =
      some (Flt.fin (78125 / 1000000), Flt.fin (-625 / 10000)) :=
  mouse_drag_formula Program.helloTextTxf (initialState Program.helloTextTxf 0)
    100 100 150 130 rfl rfl

/-- C11. Resize is idempotent: for every state and every width and height with
height != 0, applying `windowResizeEvent(width, height)` twice gives the same state as
applying it once, and after it `windowWidth = width`, `windowHeight = height`,
`aspect = width / height` (exact division) and, in `hello_text_txf.cpp`,
`viewport = (width, height)`. -/
theorem windowResizeEvent_idempotent (p : Program) (s : State) (width height : Int)
    (hh : height ≠ 0) :
    windowResizeEvent p width height (windowResizeEvent p width height s) =
      windowResizeEvent p width height s ∧
    (windowResizeEvent p width height s).windowWidth = width ∧
    (windowResizeEvent p width height s).windowHeight = height ∧
    (windowResizeEvent p width height s).aspect = Flt.fin ((width : ℚ) / (height : ℚ)) ∧
    (windowResizeEvent Program.helloTextTxf width height s).viewport =
      (Flt.fin (width : ℚ), Flt.fin (height : ℚ)) := by
  have hq : (height : ℚ) ≠ 0 := by exact_mod_cast hh
  refine ⟨by cases p <;> rfl, by cases p <;> rfl, by cases p <;> rfl, ?_, rfl⟩
  cases p <;> simp [windowResizeEvent, hq]

theorem windowResizeEvent_idempotent_witness :
    windowResizeEvent Program.helloTextTxf 800 600
        (windowResizeEvent Program.helloTextTxf 800 600
          (initialState Program.helloTextTxf 0)) =
      windowResizeEvent Program.helloTextTxf 800 600 (initialState Program.helloTextTxf 0) ∧
    (windowResizeEvent Program.helloTextTxf 800 600
      (initialState Program.helloTextTxf 0)).windowWidth = 800 ∧
    (windowResizeEvent Program.helloTextTxf 800 600
      (initialState Program.helloTextTxf 0)).windowHeight = 600 ∧
    (windowResizeEvent Program.helloTextTxf 800 600
      (initialState Program.helloTextTxf 0)).aspect =
      Flt.fin (((800 : Int) : ℚ) / ((600 : Int) : ℚ)) ∧
    (windowResizeEvent Program.helloTextTxf 800 600
      (initialState Program.helloTextTxf 0)).viewport =
      (Flt.fin ((800 : Int) : ℚ), Flt.fin ((600 : Int) : ℚ)) :=
  windowResizeEvent_idempotent Program.helloTextTxf (initialState Program.helloTextTxf 0)
    800 600 (by decide)

/-! ## Divisors along a run -/

/-- A property kept by every event that satisfies `Q` is kept by every sequence of such
events. -/
theorem handleEvents_preserves_of (P : State → Prop) (Q : Event → Prop) (p : Program)
    (hstep : ∀ s e s1, P s → Q e → handleEvent p s e = some s1 → P s1) :
    ∀ (events : List Event) (s s1 : State), P s → (∀ e ∈ events, Q e) →
      handleEvents p s events = some s1 → P s1 := by
  intro events
  induction events with
  | nil =>
    intro s s1 hs _ h
    simp only [handleEvents, Option.some.injEq] at h
    exact h ▸ hs
  | cons e es ih =>
    intro s s1 hs hq h
    simp only [handleEvents] at h
    cases he : handleEvent p s e with
    | none => rw [he] at h; cases h
    | some s2 =>
      rw [he] at h
      exact ih s2 s1 (hstep s e s2 hs (hq e (List.mem_cons_self _ _)) he)
        (fun e1 h1 => hq e1 (List.mem_cons_of_mem _ h1)) h

theorem isNonzero_of_zoomInRange (s : State) (h : zoomInRange s = true) :
    s.zoom.isNonzero = true := by
  obtain ⟨z, hz, hlo, _⟩ := (zoomInRange_iff s).mp h
  rw [hz]
  have : z ≠ 0 := by intro h0; rw [h0] at hlo; norm_num at hlo
  simp [Flt.isNonzero, this]

theorem isNonzero_clamp (v : Flt) : (clamp v ZOOM_MIN ZOOM_MAX).isNonzero = true := by
  obtain ⟨z1, h1, h2⟩ := clamp_pos v
  rw [h1]
  simp [Flt.isNonzero, h2]

theorem isNonzero_ofInt (i : Int) (h : i ≠ 0) : (Flt.ofInt i).isNonzero = true := by
  have : (i : ℚ) ≠ 0 := by exact_mod_cast h
  simp [Flt.isNonzero, Flt.ofInt, this]

/-- Every event whose resize (if it is one) has a nonzero size keeps `divisorsGood`. -/
theorem handleEvent_divisorsGood (p : Program) (wid : Nat) (s : State) (e : Event)
    (s1 : State) (hs : divisorsGood wid s) (hq : resizeNonzero wid e = true)
    (h : handleEvent p s e = some s1) : divisorsGood wid s1 := by
  obtain ⟨hid, hz, ha, hw, hh⟩ := hs
  have keep : ∀ t : State, t.windowID = s.windowID → t.zoom = s.zoom →
      t.aspect = s.aspect → t.windowWidth = s.windowWidth →
      t.windowHeight = s.windowHeight → divisorsGood wid t := by
    intro t h1 h2 h3 h4 h5
    refine ⟨h1.trans hid, ?_, by rw [h3]; exact ha, by rw [h4]; exact hw,
      by rw [h5]; exact hh⟩
    unfold zoomInRange at hz ⊢
    rw [h2]; exact hz
  cases e with
  | quit => simp [handleEvent] at h
  | window windowID event data1 data2 =>
    simp only [handleEvent] at h
    split at h
    · rename_i hc
      cases h
      have hd : data1 ≠ 0 ∧ data2 ≠ 0 := by
        simpa [resizeNonzero, hc.1, hc.2, hid] using hq
      have hq1 : (data1 : ℚ) ≠ 0 := by exact_mod_cast hd.1
      have hq2 : (data2 : ℚ) ≠ 0 := by exact_mod_cast hd.2
      have hzr : zoomInRange (windowResizeEvent p data1 data2 s) = true := by
        unfold zoomInRange at hz ⊢
        cases p <;> exact hz
      refine ⟨by cases p <;> exact hid, hzr, ?_, by cases p <;> exact hd.1,
        by cases p <;> exact hd.2⟩
      cases p <;> simp [windowResizeEvent, Flt.isNonzero, hq1, hq2]
    · cases h; exact ⟨hid, hz, ha, hw, hh⟩
  | mouseWheel y =>
    simp only [handleEvent, Option.some.injEq] at h
    subst h
    exact ⟨hid, zoomInRange_of_clamp _ _ (zoomEventMouse_zoom _ _ _ _), ha, hw, hh⟩
  | mouseMotion x y =>
    simp only [handleEvent] at h
    split at h <;> cases h <;> exact keep _ rfl rfl rfl rfl rfl
  | mouseButtonDown button x y =>
    simp only [handleEvent] at h
    split at h <;> cases h <;> exact keep _ rfl rfl rfl rfl rfl
  | mouseButtonUp button x y =>
    simp only [handleEvent] at h
    split at h <;> cases h <;> exact keep _ rfl rfl rfl rfl rfl
  | fingerMotion fingerId x y =>
    simp only [handleEvent] at h
    split at h
    · split at h <;> cases h <;> exact keep _ rfl rfl rfl rfl rfl
    · cases h; exact ⟨hid, hz, ha, hw, hh⟩
  | fingerDown fingerId x y =>
    simp only [handleEvent] at h
    split at h
    · split at h <;> cases h <;> exact keep _ rfl rfl rfl rfl rfl
    · cases h; exact ⟨hid, hz, ha, hw, hh⟩
  | multiGesture numFingers dDist x y =>
    simp only [handleEvent] at h
    split at h
    · cases h
      exact ⟨hid, zoomInRange_of_clamp _ _ (zoomEventPinch_zoom _ _ _ _), ha, hw, hh⟩
    · cases h; exact ⟨hid, hz, ha, hw, hh⟩
  | fingerUp fingerId x y =>
    simp only [handleEvent, Option.some.injEq] at h
    subst h; exact keep _ rfl rfl rfl rfl rfl
  | other =>
    simp only [handleEvent, Option.some.injEq] at h
    subst h; exact ⟨hid, hz, ha, hw, hh⟩

theorem divisorsGood_initialState (p : Program) (wid : Nat) :
    divisorsGood wid (initialState p wid) := by
  refine ⟨rfl, ?_, ?_, by simp [initialState], by simp [initialState]⟩
  · cases p <;> simp [zoomInRange, initialState, ZOOM_MIN, ZOOM_MAX, Flt.ge] <;> norm_num
  · simp [initialState, Flt.isNonzero]

/-- In a state with `divisorsGood`, every divisor of the handling of an event with a
nonzero resize is nonzero. -/
theorem handleEventDivisors_nonzero (p : Program) (wid : Nat) (s : State) (e : Event)
    (hs : divisorsGood wid s) (hq : resizeNonzero wid e = true) :
    ∀ d ∈ handleEventDivisors p s e, d.isNonzero = true := by
  obtain ⟨hid, hz, ha, hw, hh⟩ := hs
  have hzn := isNonzero_of_zoomInRange s hz
  have hwn := isNonzero_ofInt _ hw
  have hhn := isNonzero_ofInt _ hh
  intro d hd
  cases e with
  | window windowID event data1 data2 =>
    simp only [handleEventDivisors] at hd
    split at hd
    · rename_i hc
      have hne : data1 ≠ 0 ∧ data2 ≠ 0 := by
        simpa [resizeNonzero, hc.1, hc.2, hid] using hq
      simp only [windowResizeEventDivisors, List.mem_singleton] at hd
      rw [hd]; exact isNonzero_ofInt _ hne.2
    · simp at hd
  | mouseWheel y =>
    simp only [handleEventDivisors, zoomEventMouseDivisors, windowToWorldCoordsDivisors,
      windowToDeviceCoordsDivisors, deviceToWorldCoordsDivisors, List.mem_append,
      List.mem_cons, List.mem_singleton, List.not_mem_nil, or_false] at hd
    rcases hd with ((h | h) | (h | h | h)) | ((h | h) | (h | h | h)) <;> rw [h] <;>
      first | exact hwn | exact hhn | exact hzn | exact ha | exact isNonzero_clamp _
  | mouseMotion x y =>
    simp only [handleEventDivisors] at hd
    split at hd
    · simp only [panEventMouseDivisors, windowToDeviceCoordsDivisors, List.mem_append,
        List.mem_cons, List.mem_singleton, List.not_mem_nil, or_false] at hd
      rcases hd with (h | h) | (h | h | h) <;> rw [h] <;>
        first | exact hwn | exact hhn | exact hzn | exact ha
    · simp at hd
  | fingerMotion fingerId x y =>
    simp only [handleEventDivisors] at hd
    split at hd
    · split at hd
      · simp only [panEventFingerDivisors, List.mem_cons, List.mem_singleton,
          List.not_mem_nil, or_false] at hd
        rcases hd with h | h | h <;> rw [h] <;> first | exact hzn | exact ha
      · simp at hd
    · simp at hd
  | multiGesture numFingers dDist x y =>
    simp only [handleEventDivisors] at hd
    split at hd
    · simp only [zoomEventPinchDivisors, normWindowToWorldCoordsDivisors,
        deviceToWorldCoordsDivisors, List.mem_append, List.mem_cons, List.mem_singleton,
        List.not_mem_nil, or_false] at hd
      rcases hd with (h | h | h) | (h | h | h) <;> rw [h] <;>
        first | exact hzn | exact ha | exact isNonzero_clamp _
    · simp at hd
  | quit => simp [handleEventDivisors] at hd
  | mouseButtonDown button x y => simp [handleEventDivisors] at hd
  | mouseButtonUp button x y => simp [handleEventDivisors] at hd
  | fingerDown fingerId x y => simp [handleEventDivisors] at hd
  | fingerUp fingerId x y => simp [handleEventDivisors] at hd
  | other => simp [handleEventDivisors] at hd

/-- C12, as stated, fails: from the initial state a size-changed event with height 0
makes `windowResizeEvent` divide by `(float)windowHeight = 0`; and after a size-changed
event with width 0 (which sets `windowWidth = 0` and `aspect = 0`) a mouse-wheel event
divides by a zero `(float)windowWidth` and a zero `aspect`. -/
theorem divisors_counterexample :
    Flt.fin 0 ∈ handleEventDivisors Program.helloTriangle
      (initialState Program.helloTriangle 0)
      (Event.window 0 SDL_WINDOWEVENT_SIZE_CHANGED 640 0) ∧
    (handleEvents Program.helloTriangle (initialState Program.helloTriangle 0)
        [Event.window 0 SDL_WINDOWEVENT_SIZE_CHANGED 0 480]).map
      (fun s => (s.windowWidth, s.aspect)) = some (0, Flt.fin 0) ∧
    handleEvents Program.helloTriangle (initialState Program.helloTriangle 0)
        [Event.window 0 SDL_WINDOWEVENT_SIZE_CHANGED 0 480] =
      some (windowResizeEvent Program.helloTriangle 0 480
        (initialState Program.helloTriangle 0)) ∧
    handleEventDivisors Program.helloTriangle
        (windowResizeEvent Program.helloTriangle 0 480 (initialState Program.helloTriangle 0))
        (Event.mouseWheel 1) =
      [Flt.fin 0, Flt.fin 480, Flt.fin 1, Flt.fin 0, Flt.fin 1,
       Flt.fin 0, Flt.fin 480, Flt.fin (105 / 100), Flt.fin 0, Flt.fin (105 / 100)] := by
  refine ⟨?_, ?_, ?_, ?_⟩
  · simp [handleEventDivisors, windowResizeEventDivisors, initialState]
  · simp [handleEvents, handleEvent, windowResizeEvent, initialState]
  · simp [handleEvents, handleEvent, initialState]
  · simp [handleEventDivisors, zoomEventMouseDivisors, windowToWorldCoordsDivisors,
      windowToDeviceCoordsDivisors, deviceToWorldCoordsDivisors, windowResizeEvent,
      initialState, clamp, stdMax, stdMin, ZOOM_MIN, ZOOM_MAX, MOUSE_WHEEL_ZOOM_DELTA]
    norm_num

/-- C12, amended. Totality of the core when no resize is degenerate: for every finite
sequence of events applied from the initial state in which every size-changed event of
the window carries a nonzero width and a nonzero height, every float division performed
in handling a further such event has a nonzero divisor, and the handler returns unless
the event is the quit event. -/
theorem divisors_nonzero_of_resize_nonzero (p : Program) (wid : Nat) (events : List Event)
    (s : State) (e : Event) (hev : ∀ ev ∈ events, resizeNonzero wid ev = true)
    (he : resizeNonzero wid e = true)
    (h : handleEvents p (initialState p wid) events = some s) :
    (∀ d ∈ handleEventDivisors p s e, d.isNonzero = true) ∧
    (e ≠ Event.quit → ∃ s1, handleEvent p s e = some s1) := by
  have hgood : divisorsGood wid s :=
    handleEvents_preserves_of (divisorsGood wid) (fun ev => resizeNonzero wid ev = true) p
      (fun s e s1 hs hq hstep => handleEvent_divisorsGood p wid s e s1 hs hq hstep)
      events _ s (divisorsGood_initialState p wid) hev h
  refine ⟨handleEventDivisors_nonzero p wid s e hgood he, ?_⟩
  intro hne
  cases e with
  | quit => exact absurd rfl hne
  | window windowID event data1 data2 =>
    simp only [handleEvent]
    split <;> exact ⟨_, rfl⟩
  | mouseWheel y => exact ⟨_, rfl⟩
  | mouseMotion x y =>
    simp only [handleEvent]
    split <;> exact ⟨_, rfl⟩
  | mouseButtonDown button x y =>
    simp only [handleEvent]
    split <;> exact ⟨_, rfl⟩
  | mouseButtonUp button x y =>
    simp only [handleEvent]
    split <;> exact ⟨_, rfl⟩
  | fingerMotion fingerId x y =>
    simp only [handleEvent]
    split
    · split <;> exact ⟨_, rfl⟩
    · exact ⟨_, rfl⟩
  | fingerDown fingerId x y =>
    simp only [handleEvent]
    split
    · split <;> exact ⟨_, rfl⟩
    · exact ⟨_, rfl⟩
  | multiGesture numFingers dDist x y =>
    simp only [handleEvent]
    split <;> exact ⟨_, rfl⟩
  | fingerUp fingerId x y => exact ⟨_, rfl⟩
  | other => exact ⟨_, rfl⟩

theorem divisors_nonzero_of_resize_nonzero_witness :
    (∀ d ∈ handleEventDivisors Program.helloTextTxf
        (windowResizeEvent Program.helloTextTxf 800 600
          (initialState Program.helloTextTxf 1))
        (Event.mouseWheel 1), d.isNonzero = true) ∧
    (Event.mouseWheel 1 ≠ Event.quit →
      ∃ s1, handleEvent Program.helloTextTxf
        (windowResizeEvent Program.helloTextTxf 800 600
          (initialState Program.helloTextTxf 1))
        (Event.mouseWheel 1) = some s1) :=
  divisors_nonzero_of_resize_nonzero Program.helloTextTxf 1
    [Event.window 1 SDL_WINDOWEVENT_SIZE_CHANGED 800 600] _ (Event.mouseWheel 1)
    (by simp [resizeNonzero]) rfl
    (by simp [handleEvents, handleEvent, initialState])

/-- C13, as stated, fails: after `initTextTexture` with a font that failed to load, the
calls of `redraw` still contain the text-quad draw `glDrawArrays(GL_TRIANGLE_STRIP, 0, 4)`
(here with program and buffer names 1 to 4). -/
theorem redraw_text_counterexample :
    (initTextTexture none 5
        { txf := none, textureObj := 0, textSize := (Flt.fin 0, Flt.fin 0),
          triShaderProgram := 2, quadShaderProgram := 1, triangleVbo := 4,
          quadVbo := 3 }).2 = [GLCall.printfErrorLoadingTxf] ∧
    GLCall.glDrawArrays DrawMode.GL_TRIANGLE_STRIP 0 4 ∈
      redraw (initTextTexture none 5
        { txf := none, textureObj := 0, textSize := (Flt.fin 0, Flt.fin 0),
          triShaderProgram := 2, quadShaderProgram := 1, triangleVbo := 4,
          quadVbo := 3 }).1 := by
  constructor
  · rfl
  · simp [redraw]

/-- C13, amended. When the font fails to load (`txfLoadFont` returns null),
`initTextTexture` only prints the error and returns, leaving `textureObj` and `textSize`
as they were; every redraw, whatever the graphics globals, issues the triangle draw and
then also the text-quad draw. -/
theorem initTextTexture_null_font (g : Gfx) (newTexture : Nat) (g1 : Gfx) :
    initTextTexture none newTexture g =
      ({ g with txf := none }, [GLCall.printfErrorLoadingTxf]) ∧
    (initTextTexture none newTexture g).1.textureObj = g.textureObj ∧
    (initTextTexture none newTexture g).1.textSize = g.textSize ∧
    redraw g1 =
      [GLCall.glClear,
       GLCall.glUseProgram g1.triShaderProgram,
       GLCall.glBindBuffer g1.triangleVbo,
       GLCall.glVertexAttribPointer,
       GLCall.glDrawArrays DrawMode.GL_TRIANGLES 0 3,
       GLCall.glUseProgram g1.quadShaderProgram,
       GLCall.glBindBuffer g1.quadVbo,
       GLCall.glVertexAttribPointer,
       GLCall.glDrawArrays DrawMode.GL_TRIANGLE_STRIP 0 4,
       GLCall.SDL_GL_SwapWindow] ∧
    GLCall.glDrawArrays DrawMode.GL_TRIANGLES 0 3 ∈ redraw g1 ∧
    GLCall.glDrawArrays DrawMode.GL_TRIANGLE_STRIP 0 4 ∈ redraw g1 := by
  refine ⟨rfl, rfl, rfl, rfl, ?_, ?_⟩ <;> simp [redraw]

/-- C14. Ignored motion events: a finger-motion event received when `fingerDown` is false,
or whose finger id differs from `fingerDownId`, leaves the whole state unchanged; a
mouse-motion event received when not (`mouseButtonDown` and not `fingerDown` and not
`pinch`) changes only `mousePositionX` and `mousePositionY`. -/
theorem motion_ignored (p : Program) (s : State) (fingerId : Int) (fx fy : Flt) (x y : Int) :
    ((s.fingerDown = false ∨ fingerId ≠ s.fingerDownId) →
      handleEvent p s (Event.fingerMotion fingerId fx fy) = some s) ∧
    (¬ (s.mouseButtonDown = true ∧ s.fingerDown = false ∧ s.pinch = false) →
      handleEvent p s (Event.mouseMotion x y) =
        some { s with mousePositionX := x, mousePositionY := y }) := by
  constructor
  · intro hfinger
    simp only [handleEvent]
    rcases hfinger with h | h
    · simp [h]
    · simp [h]
  · intro hmouse
    simp only [handleEvent]
    split
    · rename_i hc
      exfalso
      apply hmouse
      simp only [Bool.and_eq_true, Bool.not_eq_true', and_assoc] at hc
      exact hc
    · rfl

theorem motion_ignored_witness :
    handleEvent Program.helloTriangle
        { initialState Program.helloTriangle 0 with fingerDown := true, fingerDownId := 7 }
        (Event.fingerMotion 8 (Flt.fin (1 / 4)) (Flt.fin (3 / 4))) =
      some { initialState Program.helloTriangle 0 with
        fingerDown := true, fingerDownId := 7 } ∧
    handleEvent Program.helloTriangle
        { initialState Program.helloTriangle 0 with
          mouseButtonDown := true, fingerDown := true, fingerDownId := 7 }
        (Event.mouseMotion 30 40) =
      some { initialState Program.helloTriangle 0 with
        mouseButtonDown := true, fingerDown := true, fingerDownId := 7,
        mousePositionX := 30, mousePositionY := 40 } :=
  ⟨(motion_ignored Program.helloTriangle
      { initialState Program.helloTriangle 0 with fingerDown := true, fingerDownId := 7 }
      8 (Flt.fin (1 / 4)) (Flt.fin (3 / 4)) 30 40).1 (Or.inr (by decide)),
   (motion_ignored Program.helloTriangle
      { initialState Program.helloTriangle 0 with
        mouseButtonDown := true, fingerDown := true, fingerDownId := 7 }
      8 (Flt.fin (1 / 4)) (Flt.fin (3 / 4)) 30 40).2 (by simp)⟩

/-- C15. Pinch entry: for every state, a multi-gesture event with distance change `dDist`
sets `pinch`, clears `fingerDown` and `mouseButtonDown` and applies
`zoomEventPinch(dDist, x, y)` if `numFingers = 2` and `|dDist| >= 0.001`, and leaves the
whole state unchanged in every other case (also when `dDist` is not a number). -/
theorem multiGesture_pinch_entry (p : Program) (s : State) (numFingers : Nat) (dDist : ℚ)
    (x y : Flt) :
    handleEvent p s (Event.multiGesture numFingers (Flt.fin dDist) x y) =
      some (if numFingers = 2 ∧ 1 / 1000 ≤ |dDist| then
          zoomEventPinch (Flt.fin dDist) x y
            { s with pinch := true, fingerDown := false, mouseButtonDown := false }
        else s) ∧
    (zoomEventPinch (Flt.fin dDist) x y
        { s with pinch := true, fingerDown := false, mouseButtonDown := false }).pinch
      = true ∧
    (zoomEventPinch (Flt.fin dDist) x y
        { s with pinch := true, fingerDown := false, mouseButtonDown := false }).fingerDown
      = false ∧
    (zoomEventPinch (Flt.fin dDist) x y
        { s with pinch := true, fingerDown := false,
                 mouseButtonDown := false }).mouseButtonDown = false ∧
    handleEvent p s (Event.multiGesture numFingers Flt.undef x y) = some s := by
  refine ⟨?_, rfl, rfl, rfl, ?_⟩
  · simp only [handleEvent, Flt.fabs_fin, PINCH_ZOOM_THRESHOLD, Flt.ge_fin_fin,
      decide_eq_true_eq]
    split <;> rfl
  · simp [handleEvent, Flt.fabs, Flt.ge]

/-- C16, as stated, fails: with `fingerDown` set for finger 7, a finger-up event of
finger 8 clears `fingerDown`. -/
theorem fingerUp_other_finger_counterexample :
    (handleEvent Program.helloTriangle
        { initialState Program.helloTriangle 0 with fingerDown := true, fingerDownId := 7 }
        (Event.fingerUp 8 (Flt.fin (1 / 2)) (Flt.fin (1 / 2)))).map
      (fun s => (s.fingerDown, s.fingerDownId)) = some (false, 7) := by
  simp [handleEvent, initialState]

/-- C16, amended. Every finger-up event ends a finger drag: in a state with `fingerDown`
true, a finger-up event clears `fingerDown` (and `pinch`) and changes nothing else, whether
its finger id equals `fingerDownId` or not. -/
theorem fingerUp_clears_fingerDown (p : Program) (s : State) (fingerId : Int) (x y : Flt)
    (_hf : s.fingerDown = true) :
    ∃ s1, handleEvent p s (Event.fingerUp fingerId x y) = some s1 ∧
      s1 = { s with fingerDown := false, pinch := false } ∧ s1.fingerDown = false :=
  ⟨_, rfl, rfl, rfl⟩

theorem fingerUp_clears_fingerDown_witness :
    ∃ s1, handleEvent Program.helloTriangle
        { initialState Program.helloTriangle 0 with fingerDown := true, fingerDownId := 7 }
        (Event.fingerUp 7 (Flt.fin (1 / 2)) (Flt.fin (1 / 2))) = some s1 ∧
      s1 = { initialState Program.helloTriangle 0 with
        fingerDown := false, fingerDownId := 7, pinch := false } ∧
      s1.fingerDown = false :=
  fingerUp_clears_fingerDown Program.helloTriangle
    { initialState Program.helloTriangle 0 with fingerDown := true, fingerDownId := 7 }
    7 (Flt.fin (1 / 2)) (Flt.fin (1 / 2)) rfl

/-- C17. Pinching ends in Idle: in every reachable state in which `pinch` is true, a
finger-up event gives a state in which `mouseButtonDown`, `fingerDown` and `pinch` are all
false, with `pan` and `zoom` unchanged. -/
theorem fingerUp_ends_pinch (p : Program) (wid : Nat) (s : State) (fingerId : Int)
    (x y : Flt) (h : Reachable p wid s) (hp : s.pinch = true) :
    ∃ s1, handleEvent p s (Event.fingerUp fingerId x y) = some s1 ∧
      s1.mouseButtonDown = false ∧ s1.fingerDown = false ∧ s1.pinch = false ∧
      s1.pan = s.pan ∧ s1.zoom = s.zoom :=
  ⟨_, rfl, (reachable_pinch_excludes p wid s h hp).1, rfl, rfl, rfl, rfl⟩

theorem fingerUp_ends_pinch_witness :
    ∃ s1, handleEvent Program.helloTriangle
        (zoomEventPinch (Flt.fin 1) (Flt.fin (1 / 2)) (Flt.fin (1 / 2))
          { initialState Program.helloTriangle 0 with
            pinch := true, fingerDown := false, mouseButtonDown := false })
        (Event.fingerUp 3 (Flt.fin (1 / 2)) (Flt.fin (1 / 2))) = some s1 ∧
      s1.mouseButtonDown = false ∧ s1.fingerDown = false ∧ s1.pinch = false ∧
      s1.pan = (zoomEventPinch (Flt.fin 1) (Flt.fin (1 / 2)) (Flt.fin (1 / 2))
          { initialState Program.helloTriangle 0 with
            pinch := true, fingerDown := false, mouseButtonDown := false }).pan ∧
      s1.zoom = (zoomEventPinch (Flt.fin 1) (Flt.fin (1 / 2)) (Flt.fin (1 / 2))
          { initialState Program.helloTriangle 0 with
            pinch := true, fingerDown := false, mouseButtonDown := false }).zoom :=
  fingerUp_ends_pinch Program.helloTriangle 0 _ 3 (Flt.fin (1 / 2)) (Flt.fin (1 / 2))
    (reachable_step _ _ _ _
      (Event.multiGesture 2 (Flt.fin 1) (Flt.fin (1 / 2)) (Flt.fin (1 / 2)))
      (reachable_init _ _)
      (by simp [handleEvent, PINCH_ZOOM_THRESHOLD, Flt.ge]; norm_num))
    rfl

theorem flt_add_neg (x : Flt) (a : ℚ) : x + -Flt.fin a = x - Flt.fin a := by
  cases x with
  | undef => rfl
  | fin q =>
    simp only [Flt.neg_fin, Flt.fin_add_fin, Flt.fin_sub_fin]
    congr 1
    ring

/-- C18. Mouse-wheel frame: for every state, whatever the flags, a mouse-wheel event sets
zoom to `clamp(zoom - 0.05, 0.1, 10.0)` when the wheel `y` is negative and to
`clamp(zoom + 0.05, 0.1, 10.0)` otherwise, and leaves `mouseButtonDown`, `fingerDown`,
`pinch`, `basePan`, the stored mouse and finger positions, the window size and `aspect`
unchanged. -/
theorem mouseWheel_frame (p : Program) (s : State) (y : Int) :
    ∃ s1, handleEvent p s (Event.mouseWheel y) = some s1 ∧
      s1.zoom =
        (if y < 0 then clamp (s.zoom - MOUSE_WHEEL_ZOOM_DELTA) ZOOM_MIN ZOOM_MAX
         else clamp (s.zoom + MOUSE_WHEEL_ZOOM_DELTA) ZOOM_MIN ZOOM_MAX) ∧
      s1.mouseButtonDown = s.mouseButtonDown ∧ s1.fingerDown = s.fingerDown ∧
      s1.pinch = s.pinch ∧ s1.basePan = s.basePan ∧
      s1.mouseButtonDownX = s.mouseButtonDownX ∧ s1.mouseButtonDownY = s.mouseButtonDownY ∧
      s1.mousePositionX = s.mousePositionX ∧ s1.mousePositionY = s.mousePositionY ∧
      s1.fingerDownX = s.fingerDownX ∧ s1.fingerDownY = s.fingerDownY ∧
      s1.fingerDownId = s.fingerDownId ∧
      s1.windowWidth = s.windowWidth ∧ s1.windowHeight = s.windowHeight ∧
      s1.aspect = s.aspect := by
  refine ⟨_, rfl, ?_, rfl, rfl, rfl, rfl, rfl, rfl, rfl, rfl, rfl, rfl, rfl, rfl, rfl, rfl⟩
  rw [zoomEventMouse_zoom]
  by_cases hy : y < 0
  · simp only [hy, decide_True, if_true, MOUSE_WHEEL_ZOOM_DELTA, flt_add_neg]
  · simp only [hy, decide_False, Bool.false_eq_true, if_false]

/-- C19. Finger drag closed form: for every state with exact zoom != 0 and aspect != 0
and every normalized position `(x, y)`, `panEventFinger(x, y)` sets
`pan = basePan + normWindowToDeviceCoords(0.5 + (x - fingerDownX), 0.5 + (y - fingerDownY))`
scaled by `(1/zoom, 1/(zoom*aspect))`, which is
`basePan + (2(x - fingerDownX)/zoom, -2(y - fingerDownY)/(zoom*aspect))`, and changes
nothing else. -/
theorem panEventFinger_closed_form (s : State) (z a fx fy x y : ℚ)
    (hz : s.zoom = Flt.fin z) (hz0 : z ≠ 0) (ha : s.aspect = Flt.fin a) (ha0 : a ≠ 0)
    (hfx : s.fingerDownX = Flt.fin fx) (hfy : s.fingerDownY = Flt.fin fy) :
    panEventFinger (Flt.fin x) (Flt.fin y) s =
      { s with pan :=
        (s.basePan.1 +
           (normWindowToDeviceCoords (Flt.fin (1 / 2 + (x - fx)))
             (Flt.fin (1 / 2 + (y - fy)))).1 * Flt.fin (1 / z),
         s.basePan.2 +
           (normWindowToDeviceCoords (Flt.fin (1 / 2 + (x - fx)))
             (Flt.fin (1 / 2 + (y - fy)))).2 * Flt.fin (1 / (z * a))) } ∧
    panEventFinger (Flt.fin x) (Flt.fin y) s =
      { s with pan :=
        (s.basePan.1 + Flt.fin (2 * (x - fx) / z),
         s.basePan.2 + Flt.fin (-2 * (y - fy) / (z * a))) } := by
  have h1 : (Flt.fin (1 / 2) + (Flt.fin x - s.fingerDownX) - Flt.fin (1 / 2)) * Flt.fin 2 /
      s.zoom = Flt.fin (2 * (x - fx) / z) := by
    simp only [hz, hfx, Flt.fin_sub_fin, Flt.fin_add_fin, Flt.fin_mul_fin, Flt.fin_div_fin,
      hz0, if_false]
    congr 1
    ring
  have h2 : (Flt.fin 1 - (Flt.fin (1 / 2) + (Flt.fin y - s.fingerDownY)) - Flt.fin (1 / 2)) *
      Flt.fin 2 / s.zoom / s.aspect = Flt.fin (-2 * (y - fy) / (z * a)) := by
    simp only [hz, ha, hfy, Flt.fin_sub_fin, Flt.fin_add_fin, Flt.fin_mul_fin,
      Flt.fin_div_fin, hz0, ha0, if_false]
    congr 1
    field_simp
    ring
  have h3 : (normWindowToDeviceCoords (Flt.fin (1 / 2 + (x - fx)))
      (Flt.fin (1 / 2 + (y - fy)))).1 * Flt.fin (1 / z) = Flt.fin (2 * (x - fx) / z) := by
    simp only [normWindowToDeviceCoords, Flt.fin_sub_fin, Flt.fin_mul_fin]
    congr 1
    field_simp
    ring
  have h4 : (normWindowToDeviceCoords (Flt.fin (1 / 2 + (x - fx)))
      (Flt.fin (1 / 2 + (y - fy)))).2 * Flt.fin (1 / (z * a)) =
      Flt.fin (-2 * (y - fy) / (z * a)) := by
    simp only [normWindowToDeviceCoords, Flt.fin_sub_fin, Flt.fin_mul_fin]
    congr 1
    field_simp
    ring
  have h5 : panEventFinger (Flt.fin x) (Flt.fin y) s =
      { s with pan :=
        (s.basePan.1 + Flt.fin (2 * (x - fx) / z),
         s.basePan.2 + Flt.fin (-2 * (y - fy) / (z * a))) } := by
    simp only [panEventFinger, normWindowToDeviceCoords, h1, h2]
  exact ⟨by rw [h3, h4]; exact h5, h5⟩

theorem panEventFinger_closed_form_witness :
    panEventFinger (Flt.fin (3 / 4)) (Flt.fin (1 / 4))
        { initialState Program.helloTriangle 0 with
          zoom := Flt.fin 2, aspect := Flt.fin (4 / 3), fingerDown := true,
          fingerDownX := Flt.fin (1 / 2), fingerDownY := Flt.fin (1 / 2) } =
      { initialState Program.helloTriangle 0 with
          zoom := Flt.fin 2, aspect := Flt.fin (4 / 3), fingerDown := true,
          fingerDownX := Flt.fin (1 / 2), fingerDownY := Flt.fin (1 / 2),
          pan :=
            (Flt.fin 0 +
               (normWindowToDeviceCoords (Flt.fin (1 / 2 + (3 / 4 - 1 / 2)))
                 (Flt.fin (1 / 2 + (1 / 4 - 1 / 2)))).1 * Flt.fin (1 / 2),
             Flt.fin 0 +
               (normWindowToDeviceCoords (Flt.fin (1 / 2 + (3 / 4 - 1 / 2)))
                 (Flt.fin (1 / 2 + (1 / 4 - 1 / 2)))).2 * Flt.fin (1 / (2 * (4 / 3)))) } ∧
    panEventFinger (Flt.fin (3 / 4)) (Flt.fin (1 / 4))
        { initialState Program.helloTriangle 0 with
          zoom := Flt.fin 2, aspect := Flt.fin (4 / 3), fingerDown := true,
          fingerDownX := Flt.fin (1 / 2), fingerDownY := Flt.fin (1 / 2) } =
      { initialState Program.helloTriangle 0 with
          zoom := Flt.fin 2, aspect := Flt.fin (4 / 3), fingerDown := true,
          fingerDownX := Flt.fin (1 / 2), fingerDownY := Flt.fin (1 / 2),
          pan :=
            (Flt.fin 0 + Flt.fin (2 * (3 / 4 - 1 / 2) / 2),
             Flt.fin 0 + Flt.fin (-2 * (1 / 4 - 1 / 2) / (2 * (4 / 3)))) } :=
  panEventFinger_closed_form
    { initialState Program.helloTriangle 0 with
      zoom := Flt.fin 2, aspect := Flt.fin (4 / 3), fingerDown := true,
      fingerDownX := Flt.fin (1 / 2), fingerDownY := Flt.fin (1 / 2) }
    2 (4 / 3) (1 / 2) (1 / 2) (3 / 4) (1 / 4) rfl (by norm_num) rfl (by norm_num) rfl rfl

/-- C20. The parameters `x` and `y` of `zoomEventMouse` are not used: any two argument
pairs give the same state; and the world point kept fixed is the one under the stored
mouse position: `windowToWorldCoords(mousePositionX, mousePositionY)` is the same before
and after the call (a pair of exact numbers when `pan` is) whenever zoom is in
[0.1, 10.0], aspect != 0 and the window size is positive. -/
theorem zoomEventMouse_ignores_arguments (s : State) (mouseWheelDown : Bool)
    (x y x1 y1 : Int) :
    zoomEventMouse mouseWheelDown x y s = zoomEventMouse mouseWheelDown x1 y1 s ∧
    (∀ a : ℚ, zoomInRange s = true → s.aspect = Flt.fin a → a ≠ 0 →
      0 < s.windowWidth → 0 < s.windowHeight →
      windowToWorldCoords (zoomEventMouse mouseWheelDown x y s)
          s.mousePositionX s.mousePositionY =
        windowToWorldCoords s s.mousePositionX s.mousePositionY ∧
      (∀ px py : ℚ, s.pan = (Flt.fin px, Flt.fin py) →
        ∃ wx wy : ℚ, windowToWorldCoords s s.mousePositionX s.mousePositionY =
          (Flt.fin wx, Flt.fin wy))) := by
  refine ⟨rfl, ?_⟩
  intro a hz ha ha0 hw hh
  obtain ⟨z, hzz, hlo, _⟩ := (zoomInRange_iff s).mp hz
  have hz0 : z ≠ 0 := by intro h0; rw [h0] at hlo; norm_num at hlo
  refine ⟨zoomEventMouse_anchor s mouseWheelDown x y z a hzz hz0 ha, ?_⟩
  intro px py hp
  have hw0 : (s.windowWidth : ℚ) ≠ 0 := by exact_mod_cast ne_of_gt hw
  have hh0 : (s.windowHeight : ℚ) ≠ 0 := by exact_mod_cast ne_of_gt hh
  simp only [windowToWorldCoords, windowToDeviceCoords, normWindowToDeviceCoords,
    deviceToWorldCoords, hzz, ha, hp, Flt.ofInt_eq, Flt.fin_div_fin, hw0, hh0, hz0, ha0,
    if_false, Flt.fin_sub_fin, Flt.fin_mul_fin]
  exact ⟨_, _, rfl⟩

theorem zoomEventMouse_ignores_arguments_witness :
    zoomEventMouse true 5 6
        { initialState Program.helloTextTxf 0 with
          mousePositionX := 100, mousePositionY := 200 } =
      zoomEventMouse true 7 8
        { initialState Program.helloTextTxf 0 with
          mousePositionX := 100, mousePositionY := 200 } ∧
    windowToWorldCoords
        (zoomEventMouse true 5 6
          { initialState Program.helloTextTxf 0 with
            mousePositionX := 100, mousePositionY := 200 }) 100 200 =
      windowToWorldCoords
        { initialState Program.helloTextTxf 0 with
          mousePositionX := 100, mousePositionY := 200 } 100 200 :=
  ⟨(zoomEventMouse_ignores_arguments
      { initialState Program.helloTextTxf 0 with
        mousePositionX := 100, mousePositionY := 200 } true 5 6 7 8).1,
   ((zoomEventMouse_ignores_arguments
      { initialState Program.helloTextTxf 0 with
        mousePositionX := 100, mousePositionY := 200 } true 5 6 7 8).2 1
      (by simp [zoomInRange, initialState, ZOOM_MIN, ZOOM_MAX, Flt.ge]; norm_num)
      rfl (by norm_num) (by simp [initialState]) (by simp [initialState])).1⟩

/-! ## Drags with zero displacement -/

theorem flt_add_zero (x : Flt) : x + Flt.fin 0 = x := by
  cases x with
  | undef => rfl
  | fin q => simp

/-- The integer halving of an even number. -/
theorem tdiv_two_of_even (w : Int) (hw : 0 ≤ w) (he : w % 2 = 0) :
    ((Int.tdiv w 2 : Int) : ℚ) / (w : ℚ) * 2 = if w = 0 then 0 else 1 := by
  obtain ⟨k, hk⟩ : ∃ k, w = 2 * k := ⟨w / 2, by omega⟩
  have hk0 : 0 ≤ k := by omega
  have ht : Int.tdiv w 2 = k := by
    rw [Int.tdiv_eq_ediv hw (by decide), hk]
    exact Int.mul_ediv_cancel_left k (by decide)
  rw [ht, hk]
  by_cases h0 : k = 0
  · simp [h0]
  · have hq : (k : ℚ) ≠ 0 := by exact_mod_cast h0
    have h2 : (2 * k : Int) ≠ 0 := by omega
    rw [if_neg h2]
    push_cast
    field_simp
    ring

/-- With an even window width and height (both at least 1), a mouse drag with zero
displacement gives `pan = basePan`. -/
theorem panEventMouse_zero_displacement_even (s : State) (z a : ℚ)
    (hz : s.zoom = Flt.fin z) (hz0 : z ≠ 0) (ha : s.aspect = Flt.fin a) (ha0 : a ≠ 0)
    (hw : 1 ≤ s.windowWidth) (hh : 1 ≤ s.windowHeight)
    (hwe : s.windowWidth % 2 = 0) (hhe : s.windowHeight % 2 = 0) :
    (panEventMouse s.mouseButtonDownX s.mouseButtonDownY s).pan = s.basePan := by
  have hw0 : s.windowWidth ≠ 0 := by omega
  have hh0 : s.windowHeight ≠ 0 := by omega
  have hwq : (s.windowWidth : ℚ) ≠ 0 := by exact_mod_cast hw0
  have hhq : (s.windowHeight : ℚ) ≠ 0 := by exact_mod_cast hh0
  have h1 := tdiv_two_of_even s.windowWidth (by omega) hwe
  have h2 := tdiv_two_of_even s.windowHeight (by omega) hhe
  rw [if_neg hw0] at h1
  rw [if_neg hh0] at h2
  have hX : ((Int.tdiv s.windowWidth 2 : Int) : ℚ) / (s.windowWidth : ℚ) - 1 / 2 = 0 := by
    linarith
  have hY : 1 - ((Int.tdiv s.windowHeight 2 : Int) : ℚ) / (s.windowHeight : ℚ) - 1 / 2 = 0 := by
    linarith
  simp only [panEventMouse, windowToDeviceCoords, normWindowToDeviceCoords, sub_self, add_zero,
    hz, ha, Flt.ofInt_eq, Flt.fin_div_fin, hwq, hhq, hz0, ha0, if_false, Flt.fin_sub_fin,
    Flt.fin_mul_fin, hX, hY, zero_mul, zero_div, flt_add_zero]

/-- A finger drag with zero displacement gives `pan = basePan`: `panEventFinger` works
with the float `0.5f`, not with an integer half. -/
theorem panEventFinger_zero_displacement (s : State) (z a fx fy : ℚ)
    (hz : s.zoom = Flt.fin z) (hz0 : z ≠ 0) (ha : s.aspect = Flt.fin a) (ha0 : a ≠ 0)
    (hfx : s.fingerDownX = Flt.fin fx) (hfy : s.fingerDownY = Flt.fin fy) :
    (panEventFinger (Flt.fin fx) (Flt.fin fy) s).pan = s.basePan := by
  have hX : (1 / 2 + (fx - fx) - 1 / 2 : ℚ) = 0 := by ring
  have hY : (1 - (1 / 2 + (fy - fy)) - 1 / 2 : ℚ) = 0 := by ring
  simp only [panEventFinger, normWindowToDeviceCoords, hz, ha, hfx, hfy, Flt.fin_div_fin,
    hz0, ha0, if_false, Flt.fin_sub_fin, Flt.fin_add_fin, Flt.fin_mul_fin, hX, hY, zero_mul,
    zero_div, flt_add_zero]

/-- C21. The claim fails on the code for an odd window size: after a resize to 641x481
(zoom 1, pan (0,0)), a left-button-down at (100, 100) followed by a mouse-motion event at
the same pixel sets `pan` to (-1/641, 1/641) while `basePan`, the pan at button-down, is
(0, 0): the `int` halving `windowWidth / 2` is 320, half a pixel left of the center. -/
theorem mouse_drag_zero_displacement_odd_window :
    (handleEvents Program.helloTriangle (initialState Program.helloTriangle 0)
        [Event.window 0 SDL_WINDOWEVENT_SIZE_CHANGED 641 481,
         Event.mouseButtonDown SDL_BUTTON_LEFT 100 100]).map
      (fun s => (s.mouseButtonDown, s.pan, s.zoom, s.aspect, s.windowWidth, s.windowHeight)) =
      some (true, (Flt.fin 0, Flt.fin 0), Flt.fin 1, Flt.fin (641 / 481), 641, 481) ∧
    (handleEvents Program.helloTriangle (initialState Program.helloTriangle 0)
        [Event.window 0 SDL_WINDOWEVENT_SIZE_CHANGED 641 481,
         Event.mouseButtonDown SDL_BUTTON_LEFT 100 100,
         Event.mouseMotion 100 100]).map
      (fun s => (s.pan, s.basePan)) =
      some ((Flt.fin (-1 / 641), Flt.fin (1 / 641)), (Flt.fin 0, Flt.fin 0)) := by
  constructor
  · simp [handleEvents, handleEvent, windowResizeEvent, initialState, SDL_BUTTON_LEFT]
  · simp [handleEvents, handleEvent, windowResizeEvent, initialState, SDL_BUTTON_LEFT,
      panEventMouse, windowToDeviceCoords, normWindowToDeviceCoords]
    norm_num [Int.tdiv]

/-! ## Finger drag -/

/-- After `panEventFinger(x, y)` the world point under `(x, y)` is the world point that
`(fingerDownX, fingerDownY)` has with `basePan` in place of `pan`. -/
theorem panEventFinger_world (t u : State) (z a x0 y0 x y : ℚ)
    (hz : t.zoom = Flt.fin z) (hz0 : z ≠ 0) (ha : t.aspect = Flt.fin a) (ha0 : a ≠ 0)
    (hfx : t.fingerDownX = Flt.fin x0) (hfy : t.fingerDownY = Flt.fin y0)
    (huz : u.zoom = t.zoom) (hua : u.aspect = t.aspect) (hup : u.pan = t.basePan) :
    normWindowToWorldCoords (panEventFinger (Flt.fin x) (Flt.fin y) t) (Flt.fin x) (Flt.fin y) =
      normWindowToWorldCoords u (Flt.fin x0) (Flt.fin y0) := by
  simp only [normWindowToWorldCoords, deviceToWorldCoords, panEventFinger,
    normWindowToDeviceCoords, huz, hua, hup, hz, ha, hfx, hfy, Flt.fin_div_fin, hz0, ha0,
    if_false, Flt.fin_sub_fin, Flt.fin_add_fin, Flt.fin_mul_fin]
  refine Prod.ext ?_ ?_
  · cases t.basePan.1 with
    | undef => simp
    | fin b =>
      simp only [Flt.fin_add_fin, Flt.fin_sub_fin, Flt.fin.injEq]
      field_simp
      ring
  · cases t.basePan.2 with
    | undef => simp
    | fin b =>
      simp only [Flt.fin_add_fin, Flt.fin_sub_fin, Flt.fin.injEq]
      field_simp
      ring

/-- C22. Finger drag tracks the finger: for every state `s` with exact zoom != 0 and
aspect != 0, a finger-down at normalized `(x0, y0)` that starts a finger drag snapshots
`basePan = pan`; in every later state `t` of that drag (same finger, same finger-down
data and `basePan`, zoom and aspect unchanged), a matching finger-motion to `(x, y)` makes
`normWindowToWorldCoords(x, y)` equal to the `normWindowToWorldCoords(x0, y0)` of the
finger-down state `s`, a pair of exact numbers when the pan of `s` is; in particular
directly after the finger-down. -/
theorem finger_drag_tracks_finger (p : Program) (s t : State) (fingerId : Int)
    (z a x0 y0 x y : ℚ)
    (hz : s.zoom = Flt.fin z) (hz0 : z ≠ 0) (ha : s.aspect = Flt.fin a) (ha0 : a ≠ 0) :
    (s.pinch = false → s.fingerDown = false →
      ∃ s1, handleEvent p s (Event.fingerDown fingerId (Flt.fin x0) (Flt.fin y0)) = some s1 ∧
        s1.fingerDown = true ∧ s1.fingerDownId = fingerId ∧
        s1.fingerDownX = Flt.fin x0 ∧ s1.fingerDownY = Flt.fin y0 ∧
        s1.basePan = s.pan ∧ s1.zoom = s.zoom ∧ s1.aspect = s.aspect) ∧
    (t.fingerDown = true → t.fingerDownId = fingerId →
      t.fingerDownX = Flt.fin x0 → t.fingerDownY = Flt.fin y0 →
      t.basePan = s.pan → t.zoom = s.zoom → t.aspect = s.aspect →
      ∃ t2, handleEvent p t (Event.fingerMotion fingerId (Flt.fin x) (Flt.fin y)) = some t2 ∧
        normWindowToWorldCoords t2 (Flt.fin x) (Flt.fin y) =
          normWindowToWorldCoords s (Flt.fin x0) (Flt.fin y0)) ∧
    (s.pinch = false → s.fingerDown = false →
      ∃ s2, handleEvents p s
          [Event.fingerDown fingerId (Flt.fin x0) (Flt.fin y0),
           Event.fingerMotion fingerId (Flt.fin x) (Flt.fin y)] = some s2 ∧
        normWindowToWorldCoords s2 (Flt.fin x) (Flt.fin y) =
          normWindowToWorldCoords s (Flt.fin x0) (Flt.fin y0)) ∧
    (∀ px py : ℚ, s.pan = (Flt.fin px, Flt.fin py) →
      ∃ wx wy : ℚ, normWindowToWorldCoords s (Flt.fin x0) (Flt.fin y0) =
        (Flt.fin wx, Flt.fin wy)) := by
  have hmotion : ∀ u : State, u.fingerDown = true → u.fingerDownId = fingerId →
      u.fingerDownX = Flt.fin x0 → u.fingerDownY = Flt.fin y0 →
      u.basePan = s.pan → u.zoom = s.zoom → u.aspect = s.aspect →
      handleEvent p u (Event.fingerMotion fingerId (Flt.fin x) (Flt.fin y)) =
          some (panEventFinger (Flt.fin x) (Flt.fin y) u) ∧
        normWindowToWorldCoords (panEventFinger (Flt.fin x) (Flt.fin y) u)
            (Flt.fin x) (Flt.fin y) =
          normWindowToWorldCoords s (Flt.fin x0) (Flt.fin y0) := by
    intro u hf hid hfx hfy hb huz hua
    refine ⟨by simp [handleEvent, hf, hid], ?_⟩
    exact panEventFinger_world u s z a x0 y0 x y (huz.trans hz) hz0 (hua.trans ha) ha0
      hfx hfy huz.symm hua.symm hb.symm
  have hdown : s.pinch = false → s.fingerDown = false →
      handleEvent p s (Event.fingerDown fingerId (Flt.fin x0) (Flt.fin y0)) =
        some { s with fingerDown := true, fingerDownX := Flt.fin x0,
                      fingerDownY := Flt.fin y0, fingerDownId := fingerId,
                      basePan := (s.pan.1, s.pan.2) } := by
    intro hp hf
    simp [handleEvent, hp, hf]
  refine ⟨?_, ?_, ?_, ?_⟩
  · intro hp hf
    exact ⟨_, hdown hp hf, rfl, rfl, rfl, rfl, rfl, rfl, rfl⟩
  · intro hf hid hfx hfy hb huz hua
    obtain ⟨h1, h2⟩ := hmotion t hf hid hfx hfy hb huz hua
    exact ⟨_, h1, h2⟩
  · intro hp hf
    obtain ⟨h1, h2⟩ := hmotion
      { s with fingerDown := true, fingerDownX := Flt.fin x0, fingerDownY := Flt.fin y0,
               fingerDownId := fingerId, basePan := (s.pan.1, s.pan.2) }
      rfl rfl rfl rfl rfl rfl rfl
    refine ⟨_, ?_, h2⟩
    simp only [handleEvents, hdown hp hf, h1]
  · intro px py hpan
    simp only [normWindowToWorldCoords, normWindowToDeviceCoords, deviceToWorldCoords, hz, ha,
      hpan, Flt.fin_div_fin, hz0, ha0, if_false, Flt.fin_sub_fin, Flt.fin_mul_fin]
    exact ⟨_, _, rfl⟩

theorem finger_drag_tracks_finger_witness :
    (∃ s2, handleEvents Program.helloTriangle
          { initialState Program.helloTriangle 0 with
            zoom := Flt.fin 2, aspect := Flt.fin (4 / 3), pan := (Flt.fin 1, Flt.fin (-1)) }
          [Event.fingerDown 7 (Flt.fin (1 / 4)) (Flt.fin (1 / 4)),
           Event.fingerMotion 7 (Flt.fin (3 / 4)) (Flt.fin (1 / 2))] = some s2 ∧
        normWindowToWorldCoords s2 (Flt.fin (3 / 4)) (Flt.fin (1 / 2)) =
          normWindowToWorldCoords
            { initialState Program.helloTriangle 0 with
              zoom := Flt.fin 2, aspect := Flt.fin (4 / 3),
              pan := (Flt.fin 1, Flt.fin (-1)) }
            (Flt.fin (1 / 4)) (Flt.fin (1 / 4))) ∧
    (∃ wx wy : ℚ,
        normWindowToWorldCoords
            { initialState Program.helloTriangle 0 with
              zoom := Flt.fin 2, aspect := Flt.fin (4 / 3),
              pan := (Flt.fin 1, Flt.fin (-1)) }
            (Flt.fin (1 / 4)) (Flt.fin (1 / 4)) = (Flt.fin wx, Flt.fin wy)) :=
  have h := finger_drag_tracks_finger Program.helloTriangle
    { initialState Program.helloTriangle 0 with
      zoom := Flt.fin 2, aspect := Flt.fin (4 / 3), pan := (Flt.fin 1, Flt.fin (-1)) }
    { initialState Program.helloTriangle 0 with
      zoom := Flt.fin 2, aspect := Flt.fin (4 / 3), pan := (Flt.fin 1, Flt.fin (-1)) }
    7 2 (4 / 3) (1 / 4) (1 / 4) (3 / 4) (1 / 2) rfl (by norm_num) rfl (by norm_num)
  ⟨h.2.2.1 rfl rfl, h.2.2.2 1 (-1) rfl⟩

end PanZoom
